import Mathlib

/-!
Shallow embedding of the bingo-generator core (services/generador_service.py,
services/simulador_service.py, services/bingo_live_service.py and their script
counterparts).  Python sets are modelled as `Finset ℕ`, Python lists as `List`,
Python ints as `Int` (configuration) or `Nat` (ball numbers, which are always
positive in the code paths modelled).  Functions that can raise in Python
(`ZeroDivisionError` from `%`, `ValueError` from `math.comb`) are modelled with
`Except`.  Randomness (`random.sample`, `random.shuffle`) is abstracted into an
explicit stream of draws / an explicit draw order, with the contract of the
Python primitive (k distinct values in range; a permutation) as hypotheses.
-/

set_option maxHeartbeats 1000000

/-- A cell of the paired ("Corel") tabular layout: either a sheet-id string or a
card number.  The pandas DataFrame rows built by `crear_dataframe_corel` mix the
two, so a row is a `List Celda`.  (The header row of the DataFrame carries no
card data and is not modelled.) -/
inductive Celda where
  | id (s : String)
  | num (n : Nat)
deriving DecidableEq

/-- Zero-padding to four digits, as the `f"{idx:04d}"` / `str(...).zfill(4)` of
the source. -/
def format04 (n : Nat) : String :=
  let s := toString n
  String.mk (List.replicate (4 - s.length) '0') ++ s

/-- `Carton` of bingo_live_service.py (also the per-card dict built by
`simular_jugada`): identity, the immutable numbers set and the mutable matched
set (`aciertos`). -/
structure Carton where
  bingo_id : String
  carton_tipo : String
  numeros : Finset Nat
  aciertos : Finset Nat
deriving DecidableEq

/-- `Carton.cantidad_aciertos`: size of the matched set. -/
def Carton.cantidad_aciertos (c : Carton) : Nat :=
  c.aciertos.card

/-- `Carton.es_ganador` of bingo_live_service.py: the source hardcodes the win
threshold as `self.cantidad_aciertos >= 10`. -/
def Carton.es_ganador (c : Carton) : Bool :=
  decide (10 ≤ c.cantidad_aciertos)

/-- `Carton.marcar_numero`: add the number to the matched set when the card
holds it (the returned Bool of the source is recovered by the `n ∈ c.numeros`
test at each use site). -/
def Carton.marcar (c : Carton) (n : Nat) : Carton :=
  if n ∈ c.numeros then { c with aciertos := insert n c.aciertos } else c

/-- `Carton.desmarcar_numero`: discard the number from the matched set. -/
def Carton.desmarcar (c : Carton) (n : Nat) : Carton :=
  { c with aciertos := c.aciertos.erase n }

/-- `EstadoJugada` of bingo_live_service.py: the live-play state.  The card
population is carried directly (the CSV loading of `__init__` is the separate
`cargarFila` below). -/
structure EstadoJugada where
  cartones : List Carton
  bolillas_cantadas : List Nat
  bolillas_disponibles : Finset Nat
  ganadores : List Carton
  jugada_terminada : Bool
deriving DecidableEq

/-- The state a freshly constructed `EstadoJugada` has after `__init__` loaded
its cards: no balls called, pool `set(range(1, 61))`, no winners. -/
def estadoInicial (cartones0 : List Carton) : EstadoJugada :=
  { cartones := cartones0
    bolillas_cantadas := []
    bolillas_disponibles := Finset.Icc 1 60
    ganadores := []
    jugada_terminada := false }

/-- Outcome tag of `cantar_bolilla`: the three dict shapes the source returns
(`'La jugada ya terminó'`, `'Bolilla ... ya fue cantada'`, success). -/
inductive ResultadoCantar where
  | yaTermino
  | yaCantada
  | exito
deriving DecidableEq

/-- The per-card loop body of `cantar_bolilla`: mark the ball on every card and
append to `ganadores` each card that, having been marked, `es_ganador` and is
not yet in the list (Python dataclass equality).  In every reachable call the
incoming `gan` is empty, so the snapshot-vs-reference distinction of Python
lists is immaterial here. -/
def procesarCanto (n : Nat) : List Carton → List Carton → List Carton × List Carton
  | [], gan => ([], gan)
  | c :: resto, gan =>
      if n ∈ c.numeros then
        let c' : Carton := { c with aciertos := insert n c.aciertos }
        let gan' := if c'.es_ganador ∧ c' ∉ gan then gan ++ [c'] else gan
        let r := procesarCanto n resto gan'
        (c' :: r.1, r.2)
      else
        let r := procesarCanto n resto gan
        (c :: r.1, r.2)

/-- `EstadoJugada.cantar_bolilla`: guard on `jugada_terminada`, then on
membership in `bolillas_disponibles`; otherwise append to the call history,
remove from the pool, mark every card, record new winners and finish when the
winner list is non-empty. -/
def cantar (s : EstadoJugada) (n : Nat) : ResultadoCantar × EstadoJugada :=
  if s.jugada_terminada then (.yaTermino, s)
  else if n ∉ s.bolillas_disponibles then (.yaCantada, s)
  else
    let p := procesarCanto n s.cartones s.ganadores
    (.exito,
      { cartones := p.1
        bolillas_cantadas := s.bolillas_cantadas ++ [n]
        bolillas_disponibles := s.bolillas_disponibles.erase n
        ganadores := p.2
        jugada_terminada := if p.2.isEmpty then s.jugada_terminada else true })

/-- Outcome tag of `deshacer_bolilla`. -/
inductive ResultadoDeshacer where
  | nadaQueDeshacer
  | exito (bolilla : Nat)
deriving DecidableEq

/-- `EstadoJugada.deshacer_bolilla`: pop the last called ball, put it back in
the pool, unmark it on every card and recompute the winner list from scratch
(`[c for c in self.cartones if c.es_ganador]`). -/
def deshacer (s : EstadoJugada) : ResultadoDeshacer × EstadoJugada :=
  match s.bolillas_cantadas.getLast? with
  | none => (.nadaQueDeshacer, s)
  | some ultima =>
      let cartones' := s.cartones.map (fun c => c.desmarcar ultima)
      let ganadores' := cartones'.filter (fun c => c.es_ganador)
      (.exito ultima,
        { cartones := cartones'
          bolillas_cantadas := s.bolillas_cantadas.dropLast
          bolillas_disponibles := insert ultima s.bolillas_disponibles
          ganadores := ganadores'
          jugada_terminada := ¬ ganadores'.isEmpty })

/-- `EstadoJugada.reiniciar`: clear everything but keep the card population. -/
def reiniciar (s : EstadoJugada) : EstadoJugada :=
  { cartones := s.cartones.map (fun c => { c with aciertos := ∅ })
    bolillas_cantadas := []
    bolillas_disponibles := Finset.Icc 1 60
    ganadores := []
    jugada_terminada := false }

/-- Live-play states reachable from a freshly loaded state (cards start with
empty matched sets, as loaded by `_cargar_cartones`) by any sequence of
`cantar_bolilla`, `deshacer_bolilla` and `reiniciar`. -/
inductive Alcanzable : EstadoJugada → Prop where
  | inicial (cartones0 : List Carton) (h : ∀ c ∈ cartones0, c.aciertos = ∅) :
      Alcanzable (estadoInicial cartones0)
  | canto {s : EstadoJugada} (n : Nat) (h : Alcanzable s) : Alcanzable (cantar s n).2
  | deshecho {s : EstadoJugada} (h : Alcanzable s) : Alcanzable (deshacer s).2
  | reinicio {s : EstadoJugada} (h : Alcanzable s) : Alcanzable (reiniciar s)

/-- The inner card loop of `simular_jugada` (simulador_service.py and
simuladorBingos.py) for one drawn ball: every card containing the ball gets it
added to its matched set, and a card whose matched set size reaches exactly
`numeros_por_carton` is appended (its `bingo_id`/`carton_tipo` dict) to the
winner list, in card order. -/
def pasoSimulacion (k : Nat) (b : Nat) :
    List Carton → List Carton × List (String × String)
  | [] => ([], [])
  | c :: resto =>
      if b ∈ c.numeros then
        let c' : Carton := { c with aciertos := insert b c.aciertos }
        let r := pasoSimulacion k b resto
        if c'.aciertos.card = k then (c' :: r.1, (c.bingo_id, c.carton_tipo) :: r.2)
        else (c' :: r.1, r.2)
      else
        let r := pasoSimulacion k b resto
        (c :: r.1, r.2)

/-- The draw loop of `simular_jugada`: consume the draw order one ball at a
time, counting `bolillas_cantadas`, and break as soon as the winner list of the
current ball is non-empty.  Returns (balls consumed, winners, final cards). -/
def bucleSimulacion (k : Nat) :
    List Carton → List Nat → Nat → Nat × List (String × String) × List Carton
  | cs, [], contador => (contador, [], cs)
  | cs, b :: resto, contador =>
      let paso := pasoSimulacion k b cs
      if paso.2.isEmpty then bucleSimulacion k paso.1 resto (contador + 1)
      else (contador + 1, paso.2, paso.1)

/-- `simular_jugada`: reset the per-card matched sets (`'aciertos': set()`) and
run the draw loop over the given draw order (the source shuffles
`range(1, bolillas_totales + 1)`; the order is a parameter here, with the
shuffle contract as a hypothesis where needed). -/
def simularJugada (k : Nat) (cartones : List Carton) (orden : List Nat) :
    Nat × List (String × String) × List Carton :=
  bucleSimulacion k (cartones.map (fun c => { c with aciertos := ∅ })) orden 0

/-- `ConfiguracionBingo` of generador_service.py (fields are Python ints). -/
structure ConfiguracionBingo where
  seed : Int
  numero_de_bingos : Int
  numeros_por_carton : Int
  numero_maximo : Int
  cartones_por_bingo : Int
  bingos_por_fila : Int
deriving DecidableEq

/-- `math.comb`: exact integer binomial coefficient; raises `ValueError` on a
negative argument, which the `Except` branch models. -/
def combPython (n k : Int) : Except String Nat :=
  if n < 0 ∨ k < 0 then .error "ValueError: n and k must be non-negative"
  else .ok (Nat.choose n.toNat k.toNat)

/-- Error messages of `validar_configuracion`.  The source interpolates the
offending values into the two last texts; the constant core of each message is
kept, which is all the claims inspect. -/
def msgBingosPositivo : String := "NUMERO_DE_BINGOS debe ser mayor a 0"

/-- Error message for a non-positive `numeros_por_carton`. -/
def msgNumerosPositivo : String := "NUMEROS_POR_CARTON debe ser mayor a 0"

/-- Error message for a non-positive `numero_maximo`. -/
def msgMaximoPositivo : String := "NUMERO_MAXIMO debe ser mayor a 0"

/-- Error message for `numeros_por_carton > numero_maximo`. -/
def msgNumerosVsMaximo : String :=
  "NUMEROS_POR_CARTON no puede ser mayor que NUMERO_MAXIMO"

/-- Error message for `numero_de_bingos % bingos_por_fila != 0`. -/
def msgDivisibilidad : String :=
  "NUMERO_DE_BINGOS debe ser divisible por BINGOS_POR_FILA"

/-- Error message for needing more combinations than `C(M, k)` allows. -/
def msgCapacidad : String :=
  "Imposible generar las combinaciones. Maximo posible excedido"

/-- `validar_configuracion` (generador_service.py; the script version in
generationBingosRandomAudit.py runs the same checks): collect one message per
violated constraint, in source order, and report `(no errors, error list)`.
Python raises `ZeroDivisionError` when `bingos_por_fila == 0` and `ValueError`
from `math.comb` on negative arguments; both surface as `Except.error`. -/
def validarConfiguracion (config : ConfiguracionBingo) :
    Except String (Bool × List String) :=
  let e1 := if config.numero_de_bingos ≤ 0 then [msgBingosPositivo] else []
  let e2 := if config.numeros_por_carton ≤ 0 then [msgNumerosPositivo] else []
  let e3 := if config.numero_maximo ≤ 0 then [msgMaximoPositivo] else []
  let e4 := if config.numeros_por_carton > config.numero_maximo
            then [msgNumerosVsMaximo] else []
  if config.bingos_por_fila = 0 then .error "ZeroDivisionError"
  else
    let e5 := if config.numero_de_bingos % config.bingos_por_fila ≠ 0
              then [msgDivisibilidad] else []
    match combPython config.numero_maximo config.numeros_por_carton with
    | .error m => .error m
    | .ok capacidad =>
        let necesarias := config.numero_de_bingos * config.cartones_por_bingo
        let e6 := if necesarias > (capacidad : Int) then [msgCapacidad] else []
        let errores := e1 ++ e2 ++ e3 ++ e4 ++ e5 ++ e6
        .ok (errores.isEmpty, errores)

/-- The contract of `random.sample(range(1, M + 1), k)`: `k` distinct integers
in `[1, M]`. -/
def buenMuestreo (k m : Nat) (l : List Nat) : Prop :=
  l.Nodup ∧ l.length = k ∧ ∀ x ∈ l, 1 ≤ x ∧ x ≤ m

instance (k m : Nat) (l : List Nat) : Decidable (buenMuestreo k m l) := by
  unfold buenMuestreo; infer_instance

/-- The rejection-sampling loop of `generar_combinaciones`: at step `i` the
candidate is `sorted(random.sample(...))`, i.e. the sorted `draws i`; it is
inserted only when new (the `set` of the source, kept here as a duplicate-free
list in insertion order).  The loop of the source has no bound; `fuel` makes
the model total, and `none` models a run that has not yet terminated.  The
progress callback of the source does not affect the result and is omitted. -/
def generarCombinacionesAux (draws : Nat → List Nat) (necesarias : Nat) :
    Nat → Nat → List (List Nat) → Option (List (List Nat))
  | 0, _, acc => if acc.length = necesarias then some acc else none
  | fuel + 1, i, acc =>
      if acc.length = necesarias then some acc
      else
        let carton := List.insertionSort (· ≤ ·) (draws i)
        let acc' := if carton ∈ acc then acc else acc ++ [carton]
        generarCombinacionesAux draws necesarias fuel (i + 1) acc'

/-- `generar_combinaciones`: the pseudo-random generator is seeded once from
the config seed; the resulting sample stream is the `draws` parameter. -/
def generarCombinaciones (draws : Nat → List Nat) (necesarias fuel : Nat) :
    Option (List (List Nat)) :=
  generarCombinacionesAux draws necesarias fuel 0 []

/-- One row of the paired ("Corel") layout as built inside the row loop of
`crear_dataframe_corel`: left sheet id (4-digit), the flattened numbers of the
left sheet's cards, right sheet id, the flattened numbers of the right sheet's
cards. -/
def filaCorel (idx1 idx2 : Nat) (izq der : List (List Nat)) : List Celda :=
  [Celda.id (format04 idx1)]
    ++ (izq.map (fun c => c.map Celda.num)).flatten
    ++ [Celda.id (format04 idx2)]
    ++ (der.map (fun c => c.map Celda.num)).flatten

/-- `crear_dataframe_corel` (generador_service.py; `exportar_formato_corel` of
the script is identical): `filas_corel = numero_de_bingos // bingos_por_fila`
rows; row `fila` takes left id `1 + fila` with pool indices
`fila * cartones_por_bingo + i`, and right id
`numero_de_bingos // 2 + 1 + fila` with pool indices
`(filas_corel + fila) * cartones_por_bingo + i`.  (Out-of-range pool indexing,
an `IndexError` in Python, is modelled by the `getD` default `[]`; theorems
keep indices in range.) -/
def crearDataframeCorel (cartones_lista : List (List Nat))
    (config : ConfiguracionBingo) : List (List Celda) :=
  let filas_corel := config.numero_de_bingos.toNat / config.bingos_por_fila.toNat
  let inicio_carton_2 := config.numero_de_bingos.toNat / 2 + 1
  let cpb := config.cartones_por_bingo.toNat
  (List.range filas_corel).map fun fila =>
    filaCorel (1 + fila) (inicio_carton_2 + fila)
      ((List.range cpb).map fun i => cartones_lista.getD (fila * cpb + i) [])
      ((List.range cpb).map fun i => cartones_lista.getD ((filas_corel + fila) * cpb + i) [])

/-- The value a cell yields under Python `int(x)`: a number cell is itself; an
id string parses as its digits (so `int("0004") = 4`). -/
def celdaNum : Celda → Nat
  | .num n => n
  | .id s => s.toNat?.getD 0

/-- The value a cell yields under Python `str(x)`. -/
def celdaId : Celda → String
  | .num n => toString n
  | .id s => s

/-- One reconstructed card of `cargar_cartones_corel` /
`EstadoJugada._cargar_cartones`: identity plus numbers set (matched sets start
empty and belong to the draw state, not the load). -/
structure CartonCargado where
  bingo_id : String
  carton_tipo : String
  numeros : Finset Nat
deriving DecidableEq

/-- `set(int(x) for x in fila.iloc[inicio:fin])`. -/
def extraerSlot (fila : List Celda) (inicio fin : Nat) : Finset Nat :=
  (((fila.drop inicio).take (fin - inicio)).map celdaNum).toFinset

/-- The per-row body of `cargar_cartones_corel` (simulador_service.py) and of
`EstadoJugada._cargar_cartones` (bingo_live_service.py): the two sheet ids are
read from columns 0 and 31 and the six slots from the FIXED ranges
`{'A': (1, 11), 'B': (11, 21), 'C': (21, 31), 'D': (32, 42), 'E': (42, 52),
'F': (52, 62)}` — no configuration parameter is consulted. -/
def cargarFila (fila : List Celda) : List CartonCargado :=
  let id1 := celdaId (fila.getD 0 (Celda.num 0))
  let id2 := celdaId (fila.getD 31 (Celda.num 0))
  [ ⟨id1, "A", extraerSlot fila 1 11⟩
  , ⟨id1, "B", extraerSlot fila 11 21⟩
  , ⟨id1, "C", extraerSlot fila 21 31⟩
  , ⟨id2, "D", extraerSlot fila 32 42⟩
  , ⟨id2, "E", extraerSlot fila 42 52⟩
  , ⟨id2, "F", extraerSlot fila 52 62⟩ ]

/-- Internal invariant of a reachable live-play state; the components beyond
the claimed ones (`sinGanador`) are what makes the induction go through. -/
structure InvJugada (s : EstadoJugada) : Prop where
  nodup : s.bolillas_cantadas.Nodup
  disj : ∀ n ∈ s.bolillas_cantadas, n ∉ s.bolillas_disponibles
  union : s.bolillas_cantadas.toFinset ∪ s.bolillas_disponibles = Finset.Icc 1 60
  aci : ∀ c ∈ s.cartones, c.aciertos = c.numeros ∩ s.bolillas_cantadas.toFinset
  gfin : s.jugada_terminada = true ↔ s.ganadores ≠ []
  sinGanador : s.jugada_terminada = false → ∀ c ∈ s.cartones, c.es_ganador = false

/-- A card with the full ten numbers `1..10`, used to drive the live state to a
win. -/
def cartonDiez : Carton := ⟨"0001", "A", {1, 2, 3, 4, 5, 6, 7, 8, 9, 10}, ∅⟩

/-- The live state after calling `1, 2, ..., 9` on `cartonDiez`: one ball away
from the (hardcoded) win threshold. -/
def estadoNueve : EstadoJugada :=
  (cantar ((cantar ((cantar ((cantar ((cantar ((cantar ((cantar ((cantar ((cantar
    (estadoInicial [cartonDiez]) 1).2) 2).2) 3).2) 4).2) 5).2) 6).2) 7).2) 8).2) 9).2

/-- A concrete stream of (unsorted) two-element samples for exercising the
combination generator. -/
def muestrasDePrueba : Nat → List Nat := fun i => [2 * i + 2, 2 * i + 1]

/-! ### Claim C1 -/

/-- Claim C1 (code bug): the live path `Carton.es_ganador` hardcodes the win
threshold 10 instead of deriving it from the card's own numbers-set size, so a
card whose matched set equals its whole 2-element numbers set is NOT reported a
winner.  This evaluates the code at the failing input. -/
theorem es_ganador_umbral_fijo :
    (Carton.mk "0001" "A" {1, 2} {1, 2}).aciertos
        = (Carton.mk "0001" "A" {1, 2} {1, 2}).numeros
      ∧ (Carton.mk "0001" "A" {1, 2} {1, 2}).es_ganador = false := by
  decide

/-! ### Claim C2 -/

/-- Claim C2 (counterexample): on a fresh in-progress state, calling the
out-of-range ball 61 — which was never previously called — is reported with the
AlreadyCalled outcome, because `cantar_bolilla` tests membership in the
remaining pool rather than the call history.  This falsifies the claimed
biconditional for arbitrary numbers. -/
theorem cantar_fuera_de_rango_reporta_cantada :
    (cantar (estadoInicial []) 61).1 = ResultadoCantar.yaCantada
      ∧ 61 ∉ (estadoInicial []).bolillas_cantadas
      ∧ (estadoInicial []).jugada_terminada = false := by
  decide

/-! ### Claim C4 -/

/-- Claim C4 (counterexample): with `numeros_por_carton = 6` the paired row
built by `crear_dataframe_corel` from the pool whose first card is
`[1, 2, 3, 4, 5, 6]` is loaded with slot A taken from the FIXED columns 1–10,
yielding `{1, ..., 10}` instead of the card's numbers `{1, ..., 6}`: the
loader's column ranges do not generalize to the configured
`numeros_por_carton`. -/
theorem cargar_rangos_no_generalizan :
    ((cargarFila ((crearDataframeCorel
          [[1, 2, 3, 4, 5, 6], [7, 8, 9, 10, 11, 12], [13, 14, 15, 16, 17, 18],
           [19, 20, 21, 22, 23, 24], [25, 26, 27, 28, 29, 30],
           [31, 32, 33, 34, 35, 36]]
          (ConfiguracionBingo.mk 0 2 6 60 3 2)).getD 0 [])).getD 0
        (CartonCargado.mk "" "" ∅)).numeros = ({1, 2, 3, 4, 5, 6, 7, 8, 9, 10} : Finset Nat)
      ∧ ((cargarFila ((crearDataframeCorel
          [[1, 2, 3, 4, 5, 6], [7, 8, 9, 10, 11, 12], [13, 14, 15, 16, 17, 18],
           [19, 20, 21, 22, 23, 24], [25, 26, 27, 28, 29, 30],
           [31, 32, 33, 34, 35, 36]]
          (ConfiguracionBingo.mk 0 2 6 60 3 2)).getD 0 [])).getD 0
        (CartonCargado.mk "" "" ∅)).numeros ≠ ({1, 2, 3, 4, 5, 6} : Finset Nat) := by
  decide

/-! ### Claim C6 -/

/-- Claim C6 (counterexample): a configuration with the size parameter
`cartones_por_bingo = 0` (≤ 0, hence violating the claimed constraint list)
passes `validar_configuracion` with an empty error list: the validator only
checks the positivity of `numero_de_bingos`, `numeros_por_carton` and
`numero_maximo`. -/
theorem validar_omite_parametros_fijos :
    validarConfiguracion (ConfiguracionBingo.mk 0 2 1 5 0 2) = Except.ok (true, [])
      ∧ (ConfiguracionBingo.mk 0 2 1 5 0 2).cartones_por_bingo ≤ 0 := by
  exact ⟨rfl, by decide⟩

/-! ### Helper lemmas on the live-play operations -/

lemma procesarCanto_fst (n : Nat) :
    ∀ (cs gan : List Carton),
      (procesarCanto n cs gan).1 = cs.map (fun c => c.marcar n) := by
  intro cs
  induction cs with
  | nil => intro gan; rfl
  | cons c resto ih =>
      intro gan
      by_cases hn : n ∈ c.numeros
      · simp [procesarCanto, hn, Carton.marcar, ih]
      · simp [procesarCanto, hn, Carton.marcar, ih]

lemma procesarCanto_snd_prefijo (n : Nat) :
    ∀ (cs gan : List Carton), ∃ extra,
      (procesarCanto n cs gan).2 = gan ++ extra
        ∧ ∀ c' ∈ extra, c'.es_ganador = true
            ∧ ∃ c ∈ cs, n ∈ c.numeros ∧ c' = c.marcar n := by
  intro cs
  induction cs with
  | nil => intro gan; exact ⟨[], by simp [procesarCanto]⟩
  | cons c resto ih =>
      intro gan
      by_cases hn : n ∈ c.numeros
      · by_cases hg : ({ c with aciertos := insert n c.aciertos } : Carton).es_ganador
            ∧ ({ c with aciertos := insert n c.aciertos } : Carton) ∉ gan
        · obtain ⟨extra2, heq, hprop⟩ :=
            ih (gan ++ [{ c with aciertos := insert n c.aciertos }])
          refine ⟨{ c with aciertos := insert n c.aciertos } :: extra2, ?_, ?_⟩
          · simp only [procesarCanto, if_pos hn, if_pos hg]
            simp [heq]
          · intro c' hc'
            rcases List.mem_cons.1 hc' with h | h
            · subst h
              exact ⟨hg.1, c, List.mem_cons_self .., hn,
                by simp [Carton.marcar, hn]⟩
            · obtain ⟨h1, cc, hcc, h2, h3⟩ := hprop c' h
              exact ⟨h1, cc, List.mem_cons_of_mem _ hcc, h2, h3⟩
        · obtain ⟨extra2, heq, hprop⟩ := ih gan
          refine ⟨extra2, ?_, ?_⟩
          · simp only [procesarCanto, if_pos hn, if_neg hg]
            simp [heq]
          · intro c' hc'
            obtain ⟨h1, cc, hcc, h2, h3⟩ := hprop c' hc'
            exact ⟨h1, cc, List.mem_cons_of_mem _ hcc, h2, h3⟩
      · obtain ⟨extra2, heq, hprop⟩ := ih gan
        refine ⟨extra2, ?_, ?_⟩
        · simp only [procesarCanto, if_neg hn]
          simp [heq]
        · intro c' hc'
          obtain ⟨h1, cc, hcc, h2, h3⟩ := hprop c' hc'
          exact ⟨h1, cc, List.mem_cons_of_mem _ hcc, h2, h3⟩

lemma procesarCanto_snd_sin_ganador (n : Nat) :
    ∀ (cs : List Carton),
      (∀ c ∈ cs, n ∈ c.numeros → (c.marcar n).es_ganador = false) →
      ∀ gan, (procesarCanto n cs gan).2 = gan := by
  intro cs
  induction cs with
  | nil => intro _ gan; rfl
  | cons c resto ih =>
      intro h gan
      by_cases hn : n ∈ c.numeros
      · have hg : ({ c with aciertos := insert n c.aciertos } : Carton).es_ganador = false := by
          have := h c (List.mem_cons_self ..) hn
          simpa [Carton.marcar, hn] using this
        simp only [procesarCanto, if_pos hn]
        rw [if_neg (by simp [hg])]
        exact ih (fun cc hcc => h cc (List.mem_cons_of_mem _ hcc)) gan
      · simp only [procesarCanto, if_neg hn]
        exact ih (fun cc hcc => h cc (List.mem_cons_of_mem _ hcc)) gan

lemma procesarCanto_snd_con_ganador (n : Nat) :
    ∀ (cs gan : List Carton) (c : Carton), c ∈ cs → n ∈ c.numeros →
      (c.marcar n).es_ganador = true → (procesarCanto n cs gan).2 ≠ [] := by
  intro cs
  induction cs with
  | nil => intro gan c hc; cases hc
  | cons a resto ih =>
      intro gan c hc hn hg
      rcases List.mem_cons.1 hc with h | h
      · subst h
        have hn' : n ∈ c.numeros := hn
        have hg' : ({ c with aciertos := insert n c.aciertos } : Carton).es_ganador = true := by
          simpa [Carton.marcar, hn'] using hg
        by_cases hcond : ({ c with aciertos := insert n c.aciertos } : Carton).es_ganador
            ∧ ({ c with aciertos := insert n c.aciertos } : Carton) ∉ gan
        · obtain ⟨extra, heq, -⟩ :=
            procesarCanto_snd_prefijo n resto
              (gan ++ [{ c with aciertos := insert n c.aciertos }])
          simp only [procesarCanto, if_pos hn', if_pos hcond]
          simp [heq]
        · have hmem : ({ c with aciertos := insert n c.aciertos } : Carton) ∈ gan := by
            by_contra hnm
            exact hcond ⟨hg', hnm⟩
          have hgan : gan ≠ [] := List.ne_nil_of_mem hmem
          obtain ⟨extra, heq, -⟩ := procesarCanto_snd_prefijo n resto gan
          simp only [procesarCanto, if_pos hn', if_neg hcond]
          simp only [heq, ne_eq, List.append_eq_nil]
          intro habs
          exact hgan habs.1
      · by_cases hn' : n ∈ a.numeros
        · by_cases hcond : ({ a with aciertos := insert n a.aciertos } : Carton).es_ganador
              ∧ ({ a with aciertos := insert n a.aciertos } : Carton) ∉ gan
          · simp only [procesarCanto, if_pos hn', if_pos hcond]
            exact ih _ c h hn hg
          · simp only [procesarCanto, if_pos hn', if_neg hcond]
            exact ih _ c h hn hg
        · simp only [procesarCanto, if_neg hn']
          exact ih _ c h hn hg

lemma invJugada_inicial (cartones0 : List Carton)
    (h : ∀ c ∈ cartones0, c.aciertos = ∅) :
    InvJugada (estadoInicial cartones0) := by
  refine ⟨?_, ?_, ?_, ?_, ?_, ?_⟩
  · simp [estadoInicial]
  · simp [estadoInicial]
  · simp [estadoInicial]
  · intro c hc
    simp [estadoInicial, h c hc]
  · simp [estadoInicial]
  · intro _ c hc
    simp [Carton.es_ganador, Carton.cantidad_aciertos, h c hc]

lemma invJugada_cantar (s : EstadoJugada) (n : Nat) (h : InvJugada s) :
    InvJugada (cantar s n).2 := by
  by_cases ht : s.jugada_terminada = true
  · simpa [cantar, ht] using h
  · by_cases hd : n ∈ s.bolillas_disponibles
    · have ht' : s.jugada_terminada = false := by simpa using ht
      have hgan0 : s.ganadores = [] := by
        by_contra hne
        exact absurd (h.gfin.2 hne) (by simp [ht'])
      have hnotin : n ∉ s.bolillas_cantadas := fun hmem => (h.disj n hmem) hd
      have hcall : (cantar s n).2 =
          { cartones := (procesarCanto n s.cartones s.ganadores).1
            bolillas_cantadas := s.bolillas_cantadas ++ [n]
            bolillas_disponibles := s.bolillas_disponibles.erase n
            ganadores := (procesarCanto n s.cartones s.ganadores).2
            jugada_terminada :=
              if (procesarCanto n s.cartones s.ganadores).2.isEmpty
              then s.jugada_terminada else true } := by
        simp [cantar, ht', hd]
      rw [hcall]
      refine ⟨?_, ?_, ?_, ?_, ?_, ?_⟩
      · simp [List.nodup_append, h.nodup, hnotin]
      · intro m hm
        rcases List.mem_append.1 hm with hm' | hm'
        · have := h.disj m hm'
          simp only [Finset.mem_erase]
          intro habs
          exact this habs.2
        · have hm'' : m = n := by simpa using hm'
          subst hm''
          exact Finset.not_mem_erase m _
      · have h1 : (s.bolillas_cantadas ++ [n]).toFinset
            = s.bolillas_cantadas.toFinset ∪ {n} := by
          ext x; simp [or_comm]
        rw [h1, Finset.union_assoc, ← Finset.insert_eq, Finset.insert_erase hd,
          h.union]
      · intro c' hc'
        rw [procesarCanto_fst] at hc'
        obtain ⟨c, hc, rfl⟩ := List.mem_map.1 hc'
        have hacic := h.aci c hc
        by_cases hn : n ∈ c.numeros
        · simp only [Carton.marcar, if_pos hn]
          simp only [hacic]
          ext x
          simp only [Finset.mem_insert, Finset.mem_inter, List.mem_toFinset,
            List.mem_append, List.mem_cons, List.not_mem_nil, or_false]
          constructor
          · rintro (rfl | ⟨h1, h2⟩)
            · exact ⟨hn, Or.inr rfl⟩
            · exact ⟨h1, Or.inl h2⟩
          · rintro ⟨h1, h2 | rfl⟩
            · exact Or.inr ⟨h1, h2⟩
            · exact Or.inl rfl
        · simp only [Carton.marcar, if_neg hn]
          simp only [hacic]
          ext x
          simp only [Finset.mem_inter, List.mem_toFinset, List.mem_append,
            List.mem_cons, List.not_mem_nil, or_false]
          constructor
          · rintro ⟨h1, h2⟩
            exact ⟨h1, Or.inl h2⟩
          · rintro ⟨h1, h2 | rfl⟩
            · exact ⟨h1, h2⟩
            · exact absurd h1 hn
      · by_cases hg : (procesarCanto n s.cartones s.ganadores).2 = []
        · simp [hg, ht']
        · simp [hg, List.isEmpty_iff]
      · intro hfin c' hc'
        have hg : (procesarCanto n s.cartones s.ganadores).2 = [] := by
          by_contra hne
          simp only [List.isEmpty_iff, if_neg hne] at hfin
          exact Bool.true_eq_false.mp hfin
        rw [hgan0] at hg
        rw [procesarCanto_fst] at hc'
        obtain ⟨c, hc, rfl⟩ := List.mem_map.1 hc'
        by_cases hn : n ∈ c.numeros
        · by_contra hcontra
          have hgt : (c.marcar n).es_ganador = true := by
            revert hcontra
            cases (c.marcar n).es_ganador <;> simp
          exact procesarCanto_snd_con_ganador n s.cartones [] c hc hn hgt hg
        · simp only [Carton.marcar, if_neg hn]
          exact h.sinGanador ht' c hc
    · simpa [cantar, ht, hd] using h

lemma invJugada_deshacer (s : EstadoJugada) (h : InvJugada s) :
    InvJugada (deshacer s).2 := by
  rcases s.bolillas_cantadas.eq_nil_or_concat' with hnil | ⟨l', u, hcat⟩
  · have : (deshacer s).2 = s := by
      simp [deshacer, hnil]
    rw [this]; exact h
  · have hlast : s.bolillas_cantadas.getLast? = some u := by
      rw [hcat]; exact List.getLast?_concat ..
    have hdrop : s.bolillas_cantadas.dropLast = l' := by
      rw [hcat]; exact List.dropLast_concat ..
    have hnodup := h.nodup
    rw [hcat] at hnodup
    have hl'nodup : l'.Nodup := (List.nodup_append.1 hnodup).1
    have hul' : u ∉ l' := by
      have hdisj := (List.nodup_append.1 hnodup).2.2
      intro habs
      exact hdisj habs (by simp)
    have hstate : (deshacer s).2 =
        { cartones := s.cartones.map (fun c => c.desmarcar u)
          bolillas_cantadas := s.bolillas_cantadas.dropLast
          bolillas_disponibles := insert u s.bolillas_disponibles
          ganadores := (s.cartones.map (fun c => c.desmarcar u)).filter
              (fun c => c.es_ganador)
          jugada_terminada :=
            ¬ ((s.cartones.map (fun c => c.desmarcar u)).filter
              (fun c => c.es_ganador)).isEmpty } := by
      simp [deshacer, hlast]
    rw [hstate]
    refine ⟨?_, ?_, ?_, ?_, ?_, ?_⟩
    · rw [hdrop]; exact hl'nodup
    · intro m hm
      rw [hdrop] at hm
      have hm1 : m ∈ s.bolillas_cantadas := by
        rw [hcat]; exact List.mem_append.2 (Or.inl hm)
      have hm2 := h.disj m hm1
      simp only [Finset.mem_insert]
      rintro (rfl | habs)
      · exact hul' hm
      · exact hm2 habs
    · have hu2 := h.union
      rw [hcat] at hu2
      have h1 : (l' ++ [u]).toFinset = l'.toFinset ∪ {u} := by
        ext x; simp [or_comm]
      rw [hdrop, ← hu2, h1, Finset.union_assoc, ← Finset.insert_eq]
    · intro c' hc'
      obtain ⟨c, hc, rfl⟩ := List.mem_map.1 hc'
      have hacic := h.aci c hc
      rw [hcat] at hacic
      rw [hdrop]
      simp only [Carton.desmarcar, hacic]
      ext x
      simp only [Finset.mem_erase, Finset.mem_inter, List.mem_toFinset,
        List.mem_append, List.mem_cons, List.not_mem_nil, or_false]
      constructor
      · rintro ⟨hne, h1, h2 | rfl⟩
        · exact ⟨h1, h2⟩
        · exact absurd rfl hne
      · rintro ⟨h1, h2⟩
        refine ⟨?_, h1, Or.inl h2⟩
        rintro rfl
        exact hul' h2
    · by_cases hg : ((s.cartones.map (fun c => c.desmarcar u)).filter
          (fun c => c.es_ganador)) = []
      · simp [hg]
      · simp [hg, List.isEmpty_iff]
    · intro hfin c' hc'
      have hg : ((s.cartones.map (fun c => c.desmarcar u)).filter
          (fun c => c.es_ganador)) = [] := by
        by_contra hne
        simp [List.isEmpty_iff, hne] at hfin
      have := List.filter_eq_nil_iff.1 hg c' hc'
      simpa using this

lemma invJugada_reiniciar (s : EstadoJugada) :
    InvJugada (reiniciar s) := by
  refine ⟨?_, ?_, ?_, ?_, ?_, ?_⟩
  · simp [reiniciar]
  · simp [reiniciar]
  · simp [reiniciar]
  · intro c hc
    simp only [reiniciar] at hc ⊢
    obtain ⟨c0, _, rfl⟩ := List.mem_map.1 hc
    simp
  · simp [reiniciar]
  · intro _ c hc
    simp only [reiniciar] at hc
    obtain ⟨c0, _, rfl⟩ := List.mem_map.1 hc
    simp [Carton.es_ganador, Carton.cantidad_aciertos]

lemma invJugada_alcanzable {s : EstadoJugada} (h : Alcanzable s) : InvJugada s := by
  induction h with
  | inicial cartones0 h0 => exact invJugada_inicial cartones0 h0
  | canto n _ ih => exact invJugada_cantar _ n ih
  | deshecho _ ih => exact invJugada_deshacer _ ih
  | reinicio _ _ => exact invJugada_reiniciar _

/-! ### Claim C9 -/

/-- Claim C9: every live-play state reachable from a freshly loaded state by
any sequence of call, undo and reset satisfies: the call history holds distinct
numbers; history and remaining pool are disjoint and their union is `{1..60}`;
every card's matched set is the intersection of its numbers set with the called
set (stated, as in the claim, for cards whose numbers lie in 1..60 — the code
in fact guarantees it for every card); and the finished flag holds iff the
winner set is non-empty. -/
theorem invariantes_estado_alcanzable (s : EstadoJugada) (h : Alcanzable s) :
    s.bolillas_cantadas.Nodup
      ∧ (∀ n ∈ s.bolillas_cantadas, n ∉ s.bolillas_disponibles)
      ∧ s.bolillas_cantadas.toFinset ∪ s.bolillas_disponibles = Finset.Icc 1 60
      ∧ (∀ c ∈ s.cartones, c.numeros ⊆ Finset.Icc 1 60 →
          c.aciertos = c.numeros ∩ s.bolillas_cantadas.toFinset)
      ∧ (s.jugada_terminada = true ↔ s.ganadores ≠ []) := by
  have hi := invJugada_alcanzable h
  exact ⟨hi.nodup, hi.disj, hi.union, fun c hc _ => hi.aci c hc, hi.gfin⟩

/-- Witness for C9 at a concrete reachable state: one card, one call. -/
theorem invariantes_estado_alcanzable_test :
    Alcanzable (cantar (estadoInicial [Carton.mk "0001" "A" {1, 2, 3} ∅]) 2).2
      ∧ ((cantar (estadoInicial [Carton.mk "0001" "A" {1, 2, 3} ∅]) 2).2.bolillas_cantadas.Nodup
        ∧ (∀ n ∈ (cantar (estadoInicial [Carton.mk "0001" "A" {1, 2, 3} ∅]) 2).2.bolillas_cantadas,
            n ∉ (cantar (estadoInicial [Carton.mk "0001" "A" {1, 2, 3} ∅]) 2).2.bolillas_disponibles)
        ∧ (cantar (estadoInicial [Carton.mk "0001" "A" {1, 2, 3} ∅]) 2).2.bolillas_cantadas.toFinset
              ∪ (cantar (estadoInicial [Carton.mk "0001" "A" {1, 2, 3} ∅]) 2).2.bolillas_disponibles
            = Finset.Icc 1 60
        ∧ (∀ c ∈ (cantar (estadoInicial [Carton.mk "0001" "A" {1, 2, 3} ∅]) 2).2.cartones,
            c.numeros ⊆ Finset.Icc 1 60 →
              c.aciertos = c.numeros ∩
                (cantar (estadoInicial [Carton.mk "0001" "A" {1, 2, 3} ∅]) 2).2.bolillas_cantadas.toFinset)
        ∧ ((cantar (estadoInicial [Carton.mk "0001" "A" {1, 2, 3} ∅]) 2).2.jugada_terminada = true
            ↔ (cantar (estadoInicial [Carton.mk "0001" "A" {1, 2, 3} ∅]) 2).2.ganadores ≠ [])) :=
  ⟨Alcanzable.canto 2 (Alcanzable.inicial _ (by decide)),
   invariantes_estado_alcanzable _ (Alcanzable.canto 2 (Alcanzable.inicial _ (by decide)))⟩

/-! ### Claim C2 (amended theorem) -/

/-- Claim C2 (amended): on every reachable state, (i) a finished game reports
AlreadyFinished for every number and leaves the entire state unchanged; (ii) an
in-progress game reports AlreadyCalled for a number of the ball universe 1..60
iff that number was previously called, and in that case the entire state is
unchanged.  (Amendment forced by the counterexample: the source tests
membership in the remaining pool, so numbers outside 1..60, never called, are
also reported AlreadyCalled.) -/
theorem cantar_idempotencia_guardas (s : EstadoJugada) (n : Nat)
    (h : Alcanzable s) :
    (s.jugada_terminada = true →
        (cantar s n).1 = ResultadoCantar.yaTermino ∧ (cantar s n).2 = s)
      ∧ (s.jugada_terminada = false → 1 ≤ n → n ≤ 60 →
        (((cantar s n).1 = ResultadoCantar.yaCantada) ↔ n ∈ s.bolillas_cantadas)
          ∧ ((cantar s n).1 = ResultadoCantar.yaCantada → (cantar s n).2 = s)) := by
  have hi := invJugada_alcanzable h
  constructor
  · intro ht
    simp [cantar, ht]
  · intro ht h1 h60
    by_cases hd : n ∈ s.bolillas_disponibles
    · have hres : (cantar s n).1 = ResultadoCantar.exito := by
        simp [cantar, ht, hd]
      have hnc : n ∉ s.bolillas_cantadas := fun hmem => hi.disj n hmem hd
      rw [hres]
      exact ⟨⟨fun habs => absurd habs (by decide), fun hmem => absurd hmem hnc⟩,
        fun habs => absurd habs (by decide)⟩
    · have hres : (cantar s n).1 = ResultadoCantar.yaCantada := by
        simp [cantar, ht, hd]
      have hIcc : n ∈ Finset.Icc 1 60 := Finset.mem_Icc.2 ⟨h1, h60⟩
      have hmem : n ∈ s.bolillas_cantadas := by
        have hn2 : n ∈ s.bolillas_cantadas.toFinset ∪ s.bolillas_disponibles := by
          rw [hi.union]; exact hIcc
        rcases Finset.mem_union.1 hn2 with hx | hx
        · exact List.mem_toFinset.1 hx
        · exact absurd hx hd
      have hst : (cantar s n).2 = s := by
        simp [cantar, ht, hd]
      exact ⟨⟨fun _ => hmem, fun _ => hres⟩, fun _ => hst⟩

/-- Witness for C2 at a concrete reachable state and number: after calling 5,
calling 5 again is reported AlreadyCalled. -/
theorem cantar_idempotencia_guardas_test :
    Alcanzable (cantar (estadoInicial []) 5).2
      ∧ (((cantar (estadoInicial []) 5).2.jugada_terminada = true →
            (cantar (cantar (estadoInicial []) 5).2 5).1 = ResultadoCantar.yaTermino
              ∧ (cantar (cantar (estadoInicial []) 5).2 5).2 = (cantar (estadoInicial []) 5).2)
        ∧ ((cantar (estadoInicial []) 5).2.jugada_terminada = false → 1 ≤ 5 → 5 ≤ 60 →
            (((cantar (cantar (estadoInicial []) 5).2 5).1 = ResultadoCantar.yaCantada)
                ↔ 5 ∈ (cantar (estadoInicial []) 5).2.bolillas_cantadas)
              ∧ ((cantar (cantar (estadoInicial []) 5).2 5).1 = ResultadoCantar.yaCantada →
                  (cantar (cantar (estadoInicial []) 5).2 5).2 = (cantar (estadoInicial []) 5).2))) :=
  ⟨Alcanzable.canto 5 (Alcanzable.inicial _ (by decide)),
   cantar_idempotencia_guardas _ 5 (Alcanzable.canto 5 (Alcanzable.inicial _ (by decide)))⟩

/-! ### Claim C3 -/

/-- Claim C3: on every reachable in-progress state, performing undo immediately
after a call that finished the game (i) reports the undone ball, (ii) returns
the state to in-progress with an empty winner set, (iii) restores the call
history (the ball is removed from it) and puts the ball back in the remaining
pool, and (iv) reduces each winning card's match count by exactly one. -/
theorem deshacer_tras_ganador_vuelve_en_progreso
    (s : EstadoJugada) (n : Nat) (h : Alcanzable s)
    (ht : s.jugada_terminada = false)
    (hw : (cantar s n).2.jugada_terminada = true) :
    (deshacer (cantar s n).2).1 = ResultadoDeshacer.exito n
      ∧ (deshacer (cantar s n).2).2.jugada_terminada = false
      ∧ (deshacer (cantar s n).2).2.ganadores = []
      ∧ (deshacer (cantar s n).2).2.bolillas_cantadas = s.bolillas_cantadas
      ∧ n ∈ (deshacer (cantar s n).2).2.bolillas_disponibles
      ∧ n ∉ (deshacer (cantar s n).2).2.bolillas_cantadas
      ∧ ∀ (i : Nat) (c : Carton), (cantar s n).2.cartones[i]? = some c →
          c.es_ganador = true →
          (deshacer (cantar s n).2).2.cartones[i]? = some (c.desmarcar n)
            ∧ (c.desmarcar n).cantidad_aciertos + 1 = c.cantidad_aciertos := by
  have hi := invJugada_alcanzable h
  have hd : n ∈ s.bolillas_disponibles := by
    by_contra hd
    have hsame : (cantar s n).2 = s := by simp [cantar, ht, hd]
    rw [hsame, ht] at hw
    exact Bool.false_ne_true hw
  have hgan0 : s.ganadores = [] := by
    by_contra hne
    exact absurd (hi.gfin.2 hne) (by simp [ht])
  have hnc : n ∉ s.bolillas_cantadas := fun hmem => hi.disj n hmem hd
  have hcall : (cantar s n).2 =
      { cartones := s.cartones.map (fun c => c.marcar n)
        bolillas_cantadas := s.bolillas_cantadas ++ [n]
        bolillas_disponibles := s.bolillas_disponibles.erase n
        ganadores := (procesarCanto n s.cartones s.ganadores).2
        jugada_terminada :=
          if (procesarCanto n s.cartones s.ganadores).2.isEmpty
          then s.jugada_terminada else true } := by
    simp [cantar, ht, hd, procesarCanto_fst]
  -- per-card facts
  have hna : ∀ c ∈ s.cartones, n ∉ c.aciertos := by
    intro c hc habs
    rw [hi.aci c hc] at habs
    exact hnc (List.mem_toFinset.1 (Finset.mem_inter.1 habs).2)
  have hroundtrip : ∀ c ∈ s.cartones, (c.marcar n).desmarcar n = c := by
    intro c hc
    by_cases hn : n ∈ c.numeros
    · simp only [Carton.marcar, if_pos hn, Carton.desmarcar]
      rw [Finset.erase_insert (hna c hc)]
    · simp only [Carton.marcar, if_neg hn, Carton.desmarcar]
      rw [Finset.erase_eq_of_not_mem (hna c hc)]
  have hcartones2 : (s.cartones.map (fun c => c.marcar n)).map
      (fun c => c.desmarcar n) = s.cartones := by
    rw [List.map_map]
    exact (List.map_congr_left (fun c hc => hroundtrip c hc)).trans s.cartones.map_id
  have hfiltro : s.cartones.filter (fun c => c.es_ganador) = [] :=
    List.filter_eq_nil_iff.2 (fun c hc => by simp [hi.sinGanador ht c hc])
  have hundo : deshacer (cantar s n).2 =
      (ResultadoDeshacer.exito n,
        { cartones := s.cartones
          bolillas_cantadas := s.bolillas_cantadas
          bolillas_disponibles := insert n (s.bolillas_disponibles.erase n)
          ganadores := []
          jugada_terminada := false }) := by
    rw [hcall]
    simp only [deshacer, List.getLast?_concat, List.dropLast_concat]
    rw [hcartones2, hfiltro]  -- may need adjusting
    simp
  refine ⟨by rw [hundo], by rw [hundo], by rw [hundo], by rw [hundo], ?_, ?_, ?_⟩
  · rw [hundo]
    exact Finset.mem_insert_self ..
  · rw [hundo]
    exact hnc
  · intro i c hgetc hges
    rw [hcall] at hgetc
    rw [List.getElem?_map] at hgetc
    rcases hoc : s.cartones[i]? with _ | c0
    · rw [hoc] at hgetc; cases hgetc
    · rw [hoc] at hgetc
      have hc0 : c = c0.marcar n := by
        simpa using hgetc.symm
      have hc0mem : c0 ∈ s.cartones := List.getElem?_mem hoc
      have hn : n ∈ c0.numeros := by
        by_contra hn
        rw [hc0] at hges
        simp only [Carton.marcar, if_neg hn] at hges
        exact absurd hges (by simp [hi.sinGanador ht c0 hc0mem])
      constructor
      · rw [hundo]
        have : c.desmarcar n = c0 := by
          rw [hc0]; exact hroundtrip c0 hc0mem
        rw [this, hoc]
      · have hdc : c.desmarcar n = c0 := by
          rw [hc0]; exact hroundtrip c0 hc0mem
        rw [hdc, hc0]
        simp only [Carton.marcar, if_pos hn, Carton.cantidad_aciertos]
        rw [Finset.card_insert_of_not_mem (hna c0 hc0mem)]

/-- Witness for C3: calling 1..9 on the card `{1..10}` and then calling 10
finishes the game; the undo restores the in-progress state. -/
theorem deshacer_tras_ganador_vuelve_en_progreso_test :
    Alcanzable estadoNueve
      ∧ estadoNueve.jugada_terminada = false
      ∧ (cantar estadoNueve 10).2.jugada_terminada = true
      ∧ ((deshacer (cantar estadoNueve 10).2).1 = ResultadoDeshacer.exito 10
        ∧ (deshacer (cantar estadoNueve 10).2).2.jugada_terminada = false
        ∧ (deshacer (cantar estadoNueve 10).2).2.ganadores = []
        ∧ (deshacer (cantar estadoNueve 10).2).2.bolillas_cantadas
            = estadoNueve.bolillas_cantadas
        ∧ 10 ∈ (deshacer (cantar estadoNueve 10).2).2.bolillas_disponibles
        ∧ 10 ∉ (deshacer (cantar estadoNueve 10).2).2.bolillas_cantadas
        ∧ ∀ (i : Nat) (c : Carton), (cantar estadoNueve 10).2.cartones[i]? = some c →
            c.es_ganador = true →
            (deshacer (cantar estadoNueve 10).2).2.cartones[i]? = some (c.desmarcar 10)
              ∧ (c.desmarcar 10).cantidad_aciertos + 1 = c.cantidad_aciertos) :=
  have halc : Alcanzable estadoNueve :=
    Alcanzable.canto 9 (Alcanzable.canto 8 (Alcanzable.canto 7 (Alcanzable.canto 6
      (Alcanzable.canto 5 (Alcanzable.canto 4 (Alcanzable.canto 3 (Alcanzable.canto 2
        (Alcanzable.canto 1 (Alcanzable.inicial [cartonDiez] (by decide))))))))))
  ⟨halc, by decide, by decide,
    deshacer_tras_ganador_vuelve_en_progreso estadoNueve 10 halc (by decide) (by decide)⟩

/-! ### Claim C5 -/

lemma generarCombinacionesAux_correcto (draws : Nat → List Nat)
    (necesarias k m : Nat) :
    ∀ (fuel i : Nat) (acc : List (List Nat)),
      acc.Nodup →
      (∀ c ∈ acc, List.Sorted (· ≤ ·) c ∧ c.Nodup ∧ c.length = k
          ∧ ∀ x ∈ c, 1 ≤ x ∧ x ≤ m) →
      acc.length ≤ necesarias →
      (∀ j, i ≤ j → j < i + fuel → buenMuestreo k m (draws j)) →
      ∀ out, generarCombinacionesAux draws necesarias fuel i acc = some out →
        out.length = necesarias ∧ out.Nodup ∧
          ∀ c ∈ out, List.Sorted (· ≤ ·) c ∧ c.Nodup ∧ c.length = k
            ∧ ∀ x ∈ c, 1 ≤ x ∧ x ≤ m := by
  intro fuel
  induction fuel with
  | zero =>
      intro i acc hnd hok _ _ out hout
      simp only [generarCombinacionesAux] at hout
      split at hout
      · next heq =>
          cases hout
          exact ⟨heq, hnd, hok⟩
      · cases hout
  | succ fuel ih =>
      intro i acc hnd hok hlen hdraws out hout
      simp only [generarCombinacionesAux] at hout
      split at hout
      · next heq =>
          cases hout
          exact ⟨heq, hnd, hok⟩
      · next hne =>
          have hbm : buenMuestreo k m (draws i) := hdraws i le_rfl (by omega)
          have hperm : List.Perm (List.insertionSort (· ≤ ·) (draws i)) (draws i) :=
            List.perm_insertionSort ..
          have hsorted : List.Sorted (· ≤ ·) (List.insertionSort (· ≤ ·) (draws i)) :=
            List.sorted_insertionSort ..
          have hcnodup : (List.insertionSort (· ≤ ·) (draws i)).Nodup :=
            hperm.nodup_iff.2 hbm.1
          have hclen : (List.insertionSort (· ≤ ·) (draws i)).length = k := by
            rw [hperm.length_eq]; exact hbm.2.1
          have hcrange : ∀ x ∈ List.insertionSort (· ≤ ·) (draws i), 1 ≤ x ∧ x ≤ m :=
            fun x hx => hbm.2.2 x (hperm.mem_iff.1 hx)
          by_cases hmem : List.insertionSort (· ≤ ·) (draws i) ∈ acc
          · rw [if_pos hmem] at hout
            exact ih (i + 1) acc hnd hok hlen
              (fun j hj1 hj2 => hdraws j (by omega) (by omega)) out hout
          · rw [if_neg hmem] at hout
            refine ih (i + 1) (acc ++ [List.insertionSort (· ≤ ·) (draws i)]) ?_ ?_ ?_
              (fun j hj1 hj2 => hdraws j (by omega) (by omega)) out hout
            · simp [List.nodup_append, hnd, hmem]
            · intro c hc
              rcases List.mem_append.1 hc with hc | hc
              · exact hok c hc
              · have hce : c = List.insertionSort (· ≤ ·) (draws i) := by simpa using hc
                subst hce
                exact ⟨hsorted, hcnodup, hclen, hcrange⟩
            · have hlt : acc.length < necesarias := lt_of_le_of_ne hlen hne
              simp only [List.length_append, List.length_cons, List.length_nil]
              omega

/-- Claim C5: whenever the rejection-sampling generator (seeded once: the
sample stream `draws` is a function of the config seed alone) terminates, it
returns exactly `numero_de_bingos * cartones_por_bingo` pairwise-distinct
combinations, each a sorted duplicate-free list of `numeros_por_carton`
integers in `[1, numero_maximo]` — given the `random.sample` contract for the
raw draws. -/
theorem generar_combinaciones_unicas_correctas
    (draws : Nat → List Nat) (nb cpb k m fuel : Nat)
    (hdraws : ∀ j < fuel, buenMuestreo k m (draws j))
    (out : List (List Nat))
    (hout : generarCombinaciones draws (nb * cpb) fuel = some out) :
    out.length = nb * cpb ∧ out.Nodup ∧
      ∀ c ∈ out, List.Sorted (· ≤ ·) c ∧ c.Nodup ∧ c.length = k
        ∧ ∀ x ∈ c, 1 ≤ x ∧ x ≤ m :=
  generarCombinacionesAux_correcto draws (nb * cpb) k m fuel 0 []
    (by simp) (by simp) (by simp)
    (fun j _ h2 => hdraws j (by omega)) out hout

/-- Witness for C5 on the concrete sample stream `muestrasDePrueba` with
`numero_de_bingos = 2`, `cartones_por_bingo = 3`, `numeros_por_carton = 2`,
`numero_maximo = 60`. -/
theorem generar_combinaciones_unicas_correctas_test :
    (∀ j < 6, buenMuestreo 2 60 (muestrasDePrueba j))
      ∧ ∃ out, generarCombinaciones muestrasDePrueba (2 * 3) 6 = some out
          ∧ out.length = 2 * 3 ∧ out.Nodup
          ∧ ∀ c ∈ out, List.Sorted (· ≤ ·) c ∧ c.Nodup ∧ c.length = 2
              ∧ ∀ x ∈ c, 1 ≤ x ∧ x ≤ 60 :=
  ⟨by decide, _, rfl,
    generar_combinaciones_unicas_correctas muestrasDePrueba 2 3 2 60 6
      (by decide) _ rfl⟩

/-! ### Claim C6 (amended theorem) -/

lemma mem_ifSingleton {c : Prop} [Decidable c] {x y : String} :
    (x ∈ (if c then [y] else ([] : List String))) ↔ (c ∧ x = y) := by
  by_cases h : c <;> simp [h]

lemma ifSingleton_eq_nil {c : Prop} [Decidable c] {y : String} :
    ((if c then [y] else ([] : List String)) = []) ↔ ¬ c := by
  by_cases h : c <;> simp [h]

/-- Claim C6 (amended): for every configuration on which the Python validator
returns at all (`bingos_por_fila ≠ 0`, so the `%` is defined, and non-negative
`numero_maximo` / `numeros_por_carton`, so `math.comb` is defined), it returns
success exactly when none of its six checked constraints is violated, and on
failure the error list carries one message per violated constraint — all of
them, not just the first.  Amendment forced by the counterexample: the
positivity of the two fixed domain parameters `cartones_por_bingo` and
`bingos_por_fila` is NOT among the checks.  The check is a pure function of the
configuration (no state in the model). -/
theorem validar_enumera_violaciones (config : ConfiguracionBingo)
    (hbpf : config.bingos_por_fila ≠ 0)
    (hm : 0 ≤ config.numero_maximo) (hk : 0 ≤ config.numeros_por_carton) :
    ∃ errs : List String,
      validarConfiguracion config = Except.ok (errs.isEmpty, errs)
        ∧ (errs = [] ↔
            ¬(config.numero_de_bingos ≤ 0 ∨ config.numeros_por_carton ≤ 0
              ∨ config.numero_maximo ≤ 0
              ∨ config.numeros_por_carton > config.numero_maximo
              ∨ config.numero_de_bingos % config.bingos_por_fila ≠ 0
              ∨ config.numero_de_bingos * config.cartones_por_bingo
                  > (Nat.choose config.numero_maximo.toNat
                      config.numeros_por_carton.toNat : Int)))
        ∧ (config.numero_de_bingos ≤ 0 ↔ msgBingosPositivo ∈ errs)
        ∧ (config.numeros_por_carton ≤ 0 ↔ msgNumerosPositivo ∈ errs)
        ∧ (config.numero_maximo ≤ 0 ↔ msgMaximoPositivo ∈ errs)
        ∧ (config.numeros_por_carton > config.numero_maximo
            ↔ msgNumerosVsMaximo ∈ errs)
        ∧ (config.numero_de_bingos % config.bingos_por_fila ≠ 0
            ↔ msgDivisibilidad ∈ errs)
        ∧ (config.numero_de_bingos * config.cartones_por_bingo
              > (Nat.choose config.numero_maximo.toNat
                  config.numeros_por_carton.toNat : Int)
            ↔ msgCapacidad ∈ errs) := by
  have hcomb : combPython config.numero_maximo config.numeros_por_carton
      = Except.ok (Nat.choose config.numero_maximo.toNat
          config.numeros_por_carton.toNat) := by
    unfold combPython
    rw [if_neg]
    push_neg
    omega
  have hval : validarConfiguracion config = Except.ok
      (((if config.numero_de_bingos ≤ 0 then [msgBingosPositivo] else [])
        ++ (if config.numeros_por_carton ≤ 0 then [msgNumerosPositivo] else [])
        ++ (if config.numero_maximo ≤ 0 then [msgMaximoPositivo] else [])
        ++ (if config.numeros_por_carton > config.numero_maximo
            then [msgNumerosVsMaximo] else [])
        ++ (if config.numero_de_bingos % config.bingos_por_fila ≠ 0
            then [msgDivisibilidad] else [])
        ++ (if config.numero_de_bingos * config.cartones_por_bingo
              > (Nat.choose config.numero_maximo.toNat
                  config.numeros_por_carton.toNat : Int)
            then [msgCapacidad] else [])).isEmpty,
        (if config.numero_de_bingos ≤ 0 then [msgBingosPositivo] else [])
        ++ (if config.numeros_por_carton ≤ 0 then [msgNumerosPositivo] else [])
        ++ (if config.numero_maximo ≤ 0 then [msgMaximoPositivo] else [])
        ++ (if config.numeros_por_carton > config.numero_maximo
            then [msgNumerosVsMaximo] else [])
        ++ (if config.numero_de_bingos % config.bingos_por_fila ≠ 0
            then [msgDivisibilidad] else [])
        ++ (if config.numero_de_bingos * config.cartones_por_bingo
              > (Nat.choose config.numero_maximo.toNat
                  config.numeros_por_carton.toNat : Int)
            then [msgCapacidad] else [])) := by
    simp only [validarConfiguracion]
    rw [if_neg hbpf, hcomb]
  refine ⟨_, hval, ?_, ?_, ?_, ?_, ?_, ?_, ?_⟩  -- errs := the explicit list
  · simp only [List.append_eq_nil, ifSingleton_eq_nil]
    tauto
  · simp only [List.mem_append, mem_ifSingleton]
    simp [msgBingosPositivo, msgNumerosPositivo, msgMaximoPositivo,
      msgNumerosVsMaximo, msgDivisibilidad, msgCapacidad]
  · simp only [List.mem_append, mem_ifSingleton]
    simp [msgBingosPositivo, msgNumerosPositivo, msgMaximoPositivo,
      msgNumerosVsMaximo, msgDivisibilidad, msgCapacidad]
  · simp only [List.mem_append, mem_ifSingleton]
    simp [msgBingosPositivo, msgNumerosPositivo, msgMaximoPositivo,
      msgNumerosVsMaximo, msgDivisibilidad, msgCapacidad]
  · simp only [List.mem_append, mem_ifSingleton]
    simp [msgBingosPositivo, msgNumerosPositivo, msgMaximoPositivo,
      msgNumerosVsMaximo, msgDivisibilidad, msgCapacidad]
  · simp only [List.mem_append, mem_ifSingleton]
    simp [msgBingosPositivo, msgNumerosPositivo, msgMaximoPositivo,
      msgNumerosVsMaximo, msgDivisibilidad, msgCapacidad]
  · simp only [List.mem_append, mem_ifSingleton]
    simp [msgBingosPositivo, msgNumerosPositivo, msgMaximoPositivo,
      msgNumerosVsMaximo, msgDivisibilidad, msgCapacidad]

/-- Witness for C6 (amended) at a configuration violating three of the checked
constraints (non-positive bingo count, non-positive numbers per card, and
divisibility). -/
theorem validar_enumera_violaciones_test :
    (ConfiguracionBingo.mk 7 (-5) 0 60 3 2).bingos_por_fila ≠ 0
      ∧ (0 : Int) ≤ (ConfiguracionBingo.mk 7 (-5) 0 60 3 2).numero_maximo
      ∧ (0 : Int) ≤ (ConfiguracionBingo.mk 7 (-5) 0 60 3 2).numeros_por_carton
      ∧ ∃ errs : List String,
        validarConfiguracion (ConfiguracionBingo.mk 7 (-5) 0 60 3 2)
            = Except.ok (errs.isEmpty, errs)
          ∧ (errs = [] ↔
              ¬((ConfiguracionBingo.mk 7 (-5) 0 60 3 2).numero_de_bingos ≤ 0
                ∨ (ConfiguracionBingo.mk 7 (-5) 0 60 3 2).numeros_por_carton ≤ 0
                ∨ (ConfiguracionBingo.mk 7 (-5) 0 60 3 2).numero_maximo ≤ 0
                ∨ (ConfiguracionBingo.mk 7 (-5) 0 60 3 2).numeros_por_carton
                    > (ConfiguracionBingo.mk 7 (-5) 0 60 3 2).numero_maximo
                ∨ (ConfiguracionBingo.mk 7 (-5) 0 60 3 2).numero_de_bingos
                    % (ConfiguracionBingo.mk 7 (-5) 0 60 3 2).bingos_por_fila ≠ 0
                ∨ (ConfiguracionBingo.mk 7 (-5) 0 60 3 2).numero_de_bingos
                    * (ConfiguracionBingo.mk 7 (-5) 0 60 3 2).cartones_por_bingo
                    > (Nat.choose (ConfiguracionBingo.mk 7 (-5) 0 60 3 2).numero_maximo.toNat
                        (ConfiguracionBingo.mk 7 (-5) 0 60 3 2).numeros_por_carton.toNat : Int)))
          ∧ ((ConfiguracionBingo.mk 7 (-5) 0 60 3 2).numero_de_bingos ≤ 0
              ↔ msgBingosPositivo ∈ errs)
          ∧ ((ConfiguracionBingo.mk 7 (-5) 0 60 3 2).numeros_por_carton ≤ 0
              ↔ msgNumerosPositivo ∈ errs)
          ∧ ((ConfiguracionBingo.mk 7 (-5) 0 60 3 2).numero_maximo ≤ 0
              ↔ msgMaximoPositivo ∈ errs)
          ∧ ((ConfiguracionBingo.mk 7 (-5) 0 60 3 2).numeros_por_carton
                > (ConfiguracionBingo.mk 7 (-5) 0 60 3 2).numero_maximo
              ↔ msgNumerosVsMaximo ∈ errs)
          ∧ ((ConfiguracionBingo.mk 7 (-5) 0 60 3 2).numero_de_bingos
                % (ConfiguracionBingo.mk 7 (-5) 0 60 3 2).bingos_por_fila ≠ 0
              ↔ msgDivisibilidad ∈ errs)
          ∧ ((ConfiguracionBingo.mk 7 (-5) 0 60 3 2).numero_de_bingos
                * (ConfiguracionBingo.mk 7 (-5) 0 60 3 2).cartones_por_bingo
                > (Nat.choose (ConfiguracionBingo.mk 7 (-5) 0 60 3 2).numero_maximo.toNat
                    (ConfiguracionBingo.mk 7 (-5) 0 60 3 2).numeros_por_carton.toNat : Int)
              ↔ msgCapacidad ∈ errs) :=
  ⟨by decide, by decide, by decide,
    validar_enumera_violaciones (ConfiguracionBingo.mk 7 (-5) 0 60 3 2)
      (by decide) (by decide) (by decide)⟩

/-! ### Claim C4 (amended theorem) -/

lemma extraerSlot_en (pre : List Celda) (c : List Nat) (resto : List Celda)
    (inicio n : Nat) (hpre : pre.length = inicio) (hc : c.length = n) :
    extraerSlot (pre ++ (c.map Celda.num ++ resto)) inicio (inicio + n)
      = c.toFinset := by
  unfold extraerSlot
  rw [List.drop_left' hpre]
  have harith : inicio + n - inicio = n := by omega
  rw [harith, List.take_left' (by simp [hc])]
  rw [List.map_map]
  congr 1
  exact (List.map_congr_left (fun x _ => rfl)).trans c.map_id

lemma getD_id_en (pre : List Celda) (s : String) (resto : List Celda) (n : Nat)
    (hpre : pre.length = n) :
    (pre ++ (Celda.id s :: resto)).getD n (Celda.num 0) = Celda.id s := by
  rw [List.getD_append_right pre _ (Celda.num 0) n (le_of_eq hpre)]
  simp [hpre]

/-- Claim C4 (amended): for a paired-layout row of the 10-number configuration,
the loader reconstructs exactly the six identity-to-numbers mappings, slot A
from columns 1–10, B from 11–20, C from 21–30 (left id from column 0), D from
32–41, E from 42–51, F from 52–61 (right id from column 31).  Amendment forced
by the counterexample: these column ranges are hardcoded, valid only for
`numeros_por_carton = 10`; they do not generalize to other configurations. -/
theorem cargar_rangos_fijos_diez (idx1 idx2 : Nat)
    (c0 c1 c2 c3 c4 c5 : List Nat)
    (h0 : c0.length = 10) (h1 : c1.length = 10) (h2 : c2.length = 10)
    (h3 : c3.length = 10) (h4 : c4.length = 10) (h5 : c5.length = 10) :
    cargarFila (filaCorel idx1 idx2 [c0, c1, c2] [c3, c4, c5]) =
      [ ⟨format04 idx1, "A", c0.toFinset⟩, ⟨format04 idx1, "B", c1.toFinset⟩
      , ⟨format04 idx1, "C", c2.toFinset⟩, ⟨format04 idx2, "D", c3.toFinset⟩
      , ⟨format04 idx2, "E", c4.toFinset⟩, ⟨format04 idx2, "F", c5.toFinset⟩ ] := by
  have hsplitA : filaCorel idx1 idx2 [c0, c1, c2] [c3, c4, c5]
      = [Celda.id (format04 idx1)] ++ (c0.map Celda.num ++
          (c1.map Celda.num ++ (c2.map Celda.num ++ ([Celda.id (format04 idx2)] ++
            (c3.map Celda.num ++ (c4.map Celda.num ++ c5.map Celda.num)))))) := by
    simp [filaCorel, List.append_assoc]
  have hsplitB : filaCorel idx1 idx2 [c0, c1, c2] [c3, c4, c5]
      = (Celda.id (format04 idx1) :: c0.map Celda.num) ++ (c1.map Celda.num ++
          (c2.map Celda.num ++ ([Celda.id (format04 idx2)] ++
            (c3.map Celda.num ++ (c4.map Celda.num ++ c5.map Celda.num))))) := by
    simp [filaCorel, List.append_assoc]
  have hsplitC : filaCorel idx1 idx2 [c0, c1, c2] [c3, c4, c5]
      = (Celda.id (format04 idx1) :: (c0.map Celda.num ++ c1.map Celda.num))
          ++ (c2.map Celda.num ++ ([Celda.id (format04 idx2)] ++
            (c3.map Celda.num ++ (c4.map Celda.num ++ c5.map Celda.num)))) := by
    simp [filaCorel, List.append_assoc]
  have hsplit31 : filaCorel idx1 idx2 [c0, c1, c2] [c3, c4, c5]
      = (Celda.id (format04 idx1) :: (c0.map Celda.num ++
          (c1.map Celda.num ++ c2.map Celda.num)))
          ++ (Celda.id (format04 idx2) :: (c3.map Celda.num ++
            (c4.map Celda.num ++ c5.map Celda.num))) := by
    simp [filaCorel, List.append_assoc]
  have hsplitD : filaCorel idx1 idx2 [c0, c1, c2] [c3, c4, c5]
      = (Celda.id (format04 idx1) :: (c0.map Celda.num ++
          (c1.map Celda.num ++ (c2.map Celda.num ++ [Celda.id (format04 idx2)]))))
          ++ (c3.map Celda.num ++ (c4.map Celda.num ++ c5.map Celda.num)) := by
    simp [filaCorel, List.append_assoc]
  have hsplitE : filaCorel idx1 idx2 [c0, c1, c2] [c3, c4, c5]
      = (Celda.id (format04 idx1) :: (c0.map Celda.num ++
          (c1.map Celda.num ++ (c2.map Celda.num ++ ([Celda.id (format04 idx2)]
            ++ c3.map Celda.num)))))
          ++ (c4.map Celda.num ++ c5.map Celda.num) := by
    simp [filaCorel, List.append_assoc]
  have hsplitF : filaCorel idx1 idx2 [c0, c1, c2] [c3, c4, c5]
      = (Celda.id (format04 idx1) :: (c0.map Celda.num ++
          (c1.map Celda.num ++ (c2.map Celda.num ++ ([Celda.id (format04 idx2)]
            ++ (c3.map Celda.num ++ c4.map Celda.num))))))
          ++ (c5.map Celda.num ++ []) := by
    simp [filaCorel, List.append_assoc]
  have hid1 : (filaCorel idx1 idx2 [c0, c1, c2] [c3, c4, c5]).getD 0 (Celda.num 0)
      = Celda.id (format04 idx1) := by
    rw [hsplitA]; rfl
  have hid2 : (filaCorel idx1 idx2 [c0, c1, c2] [c3, c4, c5]).getD 31 (Celda.num 0)
      = Celda.id (format04 idx2) := by
    rw [hsplit31]
    exact getD_id_en _ _ _ 31 (by simp [h0, h1, h2])
  have hA : extraerSlot (filaCorel idx1 idx2 [c0, c1, c2] [c3, c4, c5]) 1 11
      = c0.toFinset := by
    rw [hsplitA]
    exact extraerSlot_en _ c0 _ 1 10 (by simp) h0
  have hB : extraerSlot (filaCorel idx1 idx2 [c0, c1, c2] [c3, c4, c5]) 11 21
      = c1.toFinset := by
    rw [hsplitB]
    exact extraerSlot_en _ c1 _ 11 10 (by simp [h0]) h1
  have hC : extraerSlot (filaCorel idx1 idx2 [c0, c1, c2] [c3, c4, c5]) 21 31
      = c2.toFinset := by
    rw [hsplitC]
    exact extraerSlot_en _ c2 _ 21 10 (by simp [h0, h1]) h2
  have hD : extraerSlot (filaCorel idx1 idx2 [c0, c1, c2] [c3, c4, c5]) 32 42
      = c3.toFinset := by
    rw [hsplitD]
    exact extraerSlot_en _ c3 _ 32 10 (by simp [h0, h1, h2]) h3
  have hE : extraerSlot (filaCorel idx1 idx2 [c0, c1, c2] [c3, c4, c5]) 42 52
      = c4.toFinset := by
    rw [hsplitE]
    exact extraerSlot_en _ c4 _ 42 10 (by simp [h0, h1, h2, h3]) h4
  have hF : extraerSlot (filaCorel idx1 idx2 [c0, c1, c2] [c3, c4, c5]) 52 62
      = c5.toFinset := by
    rw [hsplitF]
    exact extraerSlot_en _ c5 _ 52 10 (by simp [h0, h1, h2, h3, h4]) h5
  simp only [cargarFila]
  rw [hid1, hid2, hA, hB, hC, hD, hE, hF]
  simp [celdaId]

/-- Witness for C4 (amended) on a concrete 10-number paired row. -/
theorem cargar_rangos_fijos_diez_test :
    ([1, 2, 3, 4, 5, 6, 7, 8, 9, 10] : List Nat).length = 10
      ∧ ([11, 12, 13, 14, 15, 16, 17, 18, 19, 20] : List Nat).length = 10
      ∧ ([21, 22, 23, 24, 25, 26, 27, 28, 29, 30] : List Nat).length = 10
      ∧ ([31, 32, 33, 34, 35, 36, 37, 38, 39, 40] : List Nat).length = 10
      ∧ ([41, 42, 43, 44, 45, 46, 47, 48, 49, 50] : List Nat).length = 10
      ∧ ([51, 52, 53, 54, 55, 56, 57, 58, 59, 60] : List Nat).length = 10
      ∧ cargarFila (filaCorel 1 4
          [[1, 2, 3, 4, 5, 6, 7, 8, 9, 10], [11, 12, 13, 14, 15, 16, 17, 18, 19, 20],
           [21, 22, 23, 24, 25, 26, 27, 28, 29, 30]]
          [[31, 32, 33, 34, 35, 36, 37, 38, 39, 40], [41, 42, 43, 44, 45, 46, 47, 48, 49, 50],
           [51, 52, 53, 54, 55, 56, 57, 58, 59, 60]]) =
        [ ⟨format04 1, "A", ([1, 2, 3, 4, 5, 6, 7, 8, 9, 10] : List Nat).toFinset⟩
        , ⟨format04 1, "B", ([11, 12, 13, 14, 15, 16, 17, 18, 19, 20] : List Nat).toFinset⟩
        , ⟨format04 1, "C", ([21, 22, 23, 24, 25, 26, 27, 28, 29, 30] : List Nat).toFinset⟩
        , ⟨format04 4, "D", ([31, 32, 33, 34, 35, 36, 37, 38, 39, 40] : List Nat).toFinset⟩
        , ⟨format04 4, "E", ([41, 42, 43, 44, 45, 46, 47, 48, 49, 50] : List Nat).toFinset⟩
        , ⟨format04 4, "F", ([51, 52, 53, 54, 55, 56, 57, 58, 59, 60] : List Nat).toFinset⟩ ] :=
  ⟨rfl, rfl, rfl, rfl, rfl, rfl,
    cargar_rangos_fijos_diez 1 4 _ _ _ _ _ _ rfl rfl rfl rfl rfl rfl⟩

/-! ### Claim C7 -/

lemma flatten_longitud_uniforme {α : Type} (L : List (List α)) (k : Nat)
    (h : ∀ l ∈ L, l.length = k) : L.flatten.length = L.length * k := by
  induction L with
  | nil => simp
  | cons a t ih =>
      simp only [List.flatten_cons, List.length_append, List.length_cons]
      rw [h a (List.mem_cons_self ..), ih (fun l hl => h l (List.mem_cons_of_mem _ hl))]
      ring

lemma flatten_bloque {α : Type} (L : List (List α)) (k : Nat)
    (h : ∀ l ∈ L, l.length = k) :
    ∀ j, j < L.length → ((L.flatten).drop (j * k)).take k = L.getD j [] := by
  induction L with
  | nil => intro j hj; simp at hj
  | cons a t ih =>
      intro j hj
      cases j with
      | zero =>
          simp only [Nat.zero_mul, List.drop_zero, List.flatten_cons]
          rw [List.take_left' (h a (List.mem_cons_self ..))]
          rfl
      | succ j' =>
          have ha : a.length = k := h a (List.mem_cons_self ..)
          have hdrop : ((a :: t).flatten).drop ((j' + 1) * k)
              = (t.flatten).drop (j' * k) := by
            simp only [List.flatten_cons]
            rw [show (j' + 1) * k = a.length + j' * k by rw [ha]; ring]
            exact List.drop_append ..
          rw [hdrop]
          have hrec := ih (fun l hl => h l (List.mem_cons_of_mem _ hl)) j'
            (by simpa using hj)
          simpa using hrec

lemma getD_map_range {α : Type} (f : Nat → α) (n r : Nat) (d : α) (h : r < n) :
    ((List.range n).map f).getD r d = f r := by
  rw [List.getD_eq_getElem?_getD, List.getElem?_map]
  simp [List.getElem?_range, h]

lemma getD_map_de {α β : Type} (f : α → β) (l : List α) (j : Nat) (d : β) (d' : α)
    (h : j < l.length) : (l.map f).getD j d = f (l.getD j d') := by
  rw [List.getD_eq_getElem _ _ (by simpa using h), List.getD_eq_getElem _ _ h]
  exact List.getElem_map ..

lemma drop_take_bloque {α : Type} (l1 l2 : List α) (m t : Nat)
    (h : m + t ≤ l1.length) :
    ((l1 ++ l2).drop m).take t = (l1.drop m).take t := by
  rw [List.drop_append_eq_append_drop, Nat.sub_eq_zero_of_le (by omega),
    List.drop_zero, List.take_append_of_le_length (by simp; omega)]

/-- Claim C7: for a pool of exactly `numero_de_bingos * cartones_por_bingo`
cards (all of size `kk`) and the domain value `bingos_por_fila = 2` (the only
value for which the source's literal division by 2 is self-consistent, spec
§9), the paired encoding has `numero_de_bingos / bingos_por_fila` rows; row `r`
carries left sheet id `r + 1` (zero-padded to 4 digits) at column 0 with pool
indices `r * cartones_por_bingo + j` in slots A, B, C, and right sheet id
`(numero_de_bingos / 2 + 1) + r` at column `1 + cartones_por_bingo * kk` with
pool indices `(rows + r) * cartones_por_bingo + j` in slots D, E, F; the two
halves of the pool are consumed contiguously (`2 * (rows * cartones_por_bingo)
= pool length`), not interleaved. -/
theorem corel_filas_ids_e_indices
    (pool : List (List Nat)) (config : ConfiguracionBingo) (kk : Nat)
    (hbpf : config.bingos_por_fila = 2)
    (hpar : 2 ∣ config.numero_de_bingos)
    (hpool : pool.length
        = config.numero_de_bingos.toNat * config.cartones_por_bingo.toNat)
    (hk : ∀ c ∈ pool, c.length = kk) :
    (crearDataframeCorel pool config).length = config.numero_de_bingos.toNat / 2
      ∧ 2 * ((config.numero_de_bingos.toNat / 2) * config.cartones_por_bingo.toNat)
          = pool.length
      ∧ ∀ r < config.numero_de_bingos.toNat / 2,
          ((crearDataframeCorel pool config).getD r []).getD 0 (Celda.num 0)
              = Celda.id (format04 (r + 1))
            ∧ ((crearDataframeCorel pool config).getD r []).getD
                  (1 + config.cartones_por_bingo.toNat * kk) (Celda.num 0)
              = Celda.id (format04 (config.numero_de_bingos.toNat / 2 + 1 + r))
            ∧ (∀ j < config.cartones_por_bingo.toNat,
                ((((crearDataframeCorel pool config).getD r []).drop (1 + j * kk)).take kk)
                  = (pool.getD (r * config.cartones_por_bingo.toNat + j) []).map Celda.num)
            ∧ (∀ j < config.cartones_por_bingo.toNat,
                ((((crearDataframeCorel pool config).getD r []).drop
                    (2 + config.cartones_por_bingo.toNat * kk + j * kk)).take kk)
                  = (pool.getD ((config.numero_de_bingos.toNat / 2 + r)
                      * config.cartones_por_bingo.toNat + j) []).map Celda.num) := by
  have hbpf2 : config.bingos_por_fila.toNat = 2 := by rw [hbpf]; rfl
  have heven : 2 ∣ config.numero_de_bingos.toNat := by
    rcases hpar with ⟨m, hm⟩
    omega
  have htabla : crearDataframeCorel pool config
      = (List.range (config.numero_de_bingos.toNat / 2)).map (fun fila =>
          filaCorel (1 + fila) (config.numero_de_bingos.toNat / 2 + 1 + fila)
            ((List.range config.cartones_por_bingo.toNat).map
              (fun i => pool.getD (fila * config.cartones_por_bingo.toNat + i) []))
            ((List.range config.cartones_por_bingo.toNat).map
              (fun i => pool.getD ((config.numero_de_bingos.toNat / 2 + fila)
                  * config.cartones_por_bingo.toNat + i) []))) := by
    simp only [crearDataframeCorel, hbpf2]
  refine ⟨?_, ?_, ?_⟩
  · rw [htabla]; simp
  · obtain ⟨m, hm⟩ := heven
    rw [hpool, hm, Nat.mul_div_cancel_left m (by norm_num)]
    ring
  · intro r hr
    have hrow : (crearDataframeCorel pool config).getD r []
        = filaCorel (1 + r) (config.numero_de_bingos.toNat / 2 + 1 + r)
            ((List.range config.cartones_por_bingo.toNat).map
              (fun i => pool.getD (r * config.cartones_por_bingo.toNat + i) []))
            ((List.range config.cartones_por_bingo.toNat).map
              (fun i => pool.getD ((config.numero_de_bingos.toNat / 2 + r)
                  * config.cartones_por_bingo.toNat + i) [])) := by
      rw [htabla]
      exact getD_map_range _ _ r _ hr
    have hidxIzq : ∀ i < config.cartones_por_bingo.toNat,
        r * config.cartones_por_bingo.toNat + i < pool.length := by
      intro i hi
      have h1 : r * config.cartones_por_bingo.toNat + i
          < (r + 1) * config.cartones_por_bingo.toNat := by
        rw [Nat.succ_mul]; omega
      have h2 : (r + 1) * config.cartones_por_bingo.toNat
          ≤ (config.numero_de_bingos.toNat / 2) * config.cartones_por_bingo.toNat :=
        Nat.mul_le_mul_right _ (by omega)
      have h3 : (config.numero_de_bingos.toNat / 2) * config.cartones_por_bingo.toNat
          ≤ config.numero_de_bingos.toNat * config.cartones_por_bingo.toNat :=
        Nat.mul_le_mul_right _ (Nat.div_le_self ..)
      omega
    have hidxDer : ∀ i < config.cartones_por_bingo.toNat,
        (config.numero_de_bingos.toNat / 2 + r) * config.cartones_por_bingo.toNat + i
          < pool.length := by
      intro i hi
      have h1 : (config.numero_de_bingos.toNat / 2 + r)
            * config.cartones_por_bingo.toNat + i
          < (config.numero_de_bingos.toNat / 2 + r + 1)
            * config.cartones_por_bingo.toNat := by
        rw [Nat.succ_mul]; omega
      have h2 : (config.numero_de_bingos.toNat / 2 + r + 1)
            * config.cartones_por_bingo.toNat
          ≤ config.numero_de_bingos.toNat * config.cartones_por_bingo.toNat :=
        Nat.mul_le_mul_right _ (by omega)
      omega
    have hbloques : ∀ (idxs : Nat → Nat),
        (∀ i < config.cartones_por_bingo.toNat, idxs i < pool.length) →
        ∀ l ∈ ((List.range config.cartones_por_bingo.toNat).map
            (fun i => pool.getD (idxs i) [])).map (fun c => c.map Celda.num),
          l.length = kk := by
      intro idxs hidxs l hl
      obtain ⟨c, hc, rfl⟩ := List.mem_map.1 hl
      obtain ⟨i, hi, rfl⟩ := List.mem_map.1 hc
      have hi' : i < config.cartones_por_bingo.toNat := List.mem_range.1 hi
      have hmem : pool.getD (idxs i) [] ∈ pool := by
        rw [List.getD_eq_getElem _ _ (hidxs i hi')]
        exact List.getElem_mem _
      have hlen := hk _ hmem
      simpa using hlen
    have hIzq := hbloques (fun i => r * config.cartones_por_bingo.toNat + i) hidxIzq
    have hDer := hbloques
      (fun i => (config.numero_de_bingos.toNat / 2 + r)
        * config.cartones_por_bingo.toNat + i) hidxDer
    have hJ1len : ((((List.range config.cartones_por_bingo.toNat).map
        (fun i => pool.getD (r * config.cartones_por_bingo.toNat + i) [])).map
          (fun c => c.map Celda.num)).flatten).length
        = config.cartones_por_bingo.toNat * kk := by
      rw [flatten_longitud_uniforme _ kk hIzq]
      simp
    refine ⟨?_, ?_, ?_, ?_⟩
    · rw [hrow, Nat.add_comm 1 r]
      rfl
    · have hsplit : filaCorel (1 + r) (config.numero_de_bingos.toNat / 2 + 1 + r)
          ((List.range config.cartones_por_bingo.toNat).map
            (fun i => pool.getD (r * config.cartones_por_bingo.toNat + i) []))
          ((List.range config.cartones_por_bingo.toNat).map
            (fun i => pool.getD ((config.numero_de_bingos.toNat / 2 + r)
                * config.cartones_por_bingo.toNat + i) []))
          = (Celda.id (format04 (1 + r)) ::
              (((List.range config.cartones_por_bingo.toNat).map
                (fun i => pool.getD (r * config.cartones_por_bingo.toNat + i) [])).map
                  (fun c => c.map Celda.num)).flatten)
            ++ (Celda.id (format04 (config.numero_de_bingos.toNat / 2 + 1 + r)) ::
              (((List.range config.cartones_por_bingo.toNat).map
                (fun i => pool.getD ((config.numero_de_bingos.toNat / 2 + r)
                    * config.cartones_por_bingo.toNat + i) [])).map
                  (fun c => c.map Celda.num)).flatten) := by
        simp [filaCorel]
      have hpre : (Celda.id (format04 (1 + r)) ::
          (((List.range config.cartones_por_bingo.toNat).map
            (fun i => pool.getD (r * config.cartones_por_bingo.toNat + i) [])).map
              (fun c => c.map Celda.num)).flatten).length
          = 1 + config.cartones_por_bingo.toNat * kk := by
        simp only [List.length_cons]
        rw [hJ1len]
        omega
      rw [hrow, hsplit]
      exact getD_id_en _ _ _ _ hpre
    · intro j hj
      have hsplit : filaCorel (1 + r) (config.numero_de_bingos.toNat / 2 + 1 + r)
          ((List.range config.cartones_por_bingo.toNat).map
            (fun i => pool.getD (r * config.cartones_por_bingo.toNat + i) []))
          ((List.range config.cartones_por_bingo.toNat).map
            (fun i => pool.getD ((config.numero_de_bingos.toNat / 2 + r)
                * config.cartones_por_bingo.toNat + i) []))
          = Celda.id (format04 (1 + r)) ::
              ((((List.range config.cartones_por_bingo.toNat).map
                (fun i => pool.getD (r * config.cartones_por_bingo.toNat + i) [])).map
                  (fun c => c.map Celda.num)).flatten
                ++ (Celda.id (format04 (config.numero_de_bingos.toNat / 2 + 1 + r)) ::
                  (((List.range config.cartones_por_bingo.toNat).map
                    (fun i => pool.getD ((config.numero_de_bingos.toNat / 2 + r)
                        * config.cartones_por_bingo.toNat + i) [])).map
                      (fun c => c.map Celda.num)).flatten)) := by
        simp [filaCorel]
      have hbound : j * kk + kk
          ≤ ((((List.range config.cartones_por_bingo.toNat).map
              (fun i => pool.getD (r * config.cartones_por_bingo.toNat + i) [])).map
                (fun c => c.map Celda.num)).flatten).length := by
        rw [hJ1len]
        have hmul : (j + 1) * kk ≤ config.cartones_por_bingo.toNat * kk :=
          Nat.mul_le_mul_right _ (by omega)
        rw [Nat.succ_mul] at hmul
        omega
      rw [hrow, hsplit, show 1 + j * kk = j * kk + 1 by omega, List.drop_succ_cons,
        drop_take_bloque _ _ _ _ hbound,
        flatten_bloque _ kk hIzq j (by simpa using hj),
        getD_map_de (fun c => c.map Celda.num) _ j [] [] (by simpa using hj),
        getD_map_range _ _ j _ hj]
    · intro j hj
      have hsplit : filaCorel (1 + r) (config.numero_de_bingos.toNat / 2 + 1 + r)
          ((List.range config.cartones_por_bingo.toNat).map
            (fun i => pool.getD (r * config.cartones_por_bingo.toNat + i) []))
          ((List.range config.cartones_por_bingo.toNat).map
            (fun i => pool.getD ((config.numero_de_bingos.toNat / 2 + r)
                * config.cartones_por_bingo.toNat + i) []))
          = (Celda.id (format04 (1 + r)) ::
              ((((List.range config.cartones_por_bingo.toNat).map
                (fun i => pool.getD (r * config.cartones_por_bingo.toNat + i) [])).map
                  (fun c => c.map Celda.num)).flatten
                ++ [Celda.id (format04 (config.numero_de_bingos.toNat / 2 + 1 + r))]))
            ++ (((List.range config.cartones_por_bingo.toNat).map
                (fun i => pool.getD ((config.numero_de_bingos.toNat / 2 + r)
                    * config.cartones_por_bingo.toNat + i) [])).map
                  (fun c => c.map Celda.num)).flatten := by
        simp [filaCorel]
      have hAlen : (Celda.id (format04 (1 + r)) ::
          ((((List.range config.cartones_por_bingo.toNat).map
            (fun i => pool.getD (r * config.cartones_por_bingo.toNat + i) [])).map
              (fun c => c.map Celda.num)).flatten
            ++ [Celda.id (format04 (config.numero_de_bingos.toNat / 2 + 1 + r))])).length
          = 2 + config.cartones_por_bingo.toNat * kk := by
        simp only [List.length_cons, List.length_append, List.length_nil]
        rw [hJ1len]
        omega
      rw [hrow, hsplit,
        show 2 + config.cartones_por_bingo.toNat * kk + j * kk
          = (Celda.id (format04 (1 + r)) ::
              ((((List.range config.cartones_por_bingo.toNat).map
                (fun i => pool.getD (r * config.cartones_por_bingo.toNat + i) [])).map
                  (fun c => c.map Celda.num)).flatten
                ++ [Celda.id (format04 (config.numero_de_bingos.toNat / 2 + 1 + r))])).length
            + j * kk by rw [hAlen],
        List.drop_append,
        flatten_bloque _ kk hDer j (by simpa using hj),
        getD_map_de (fun c => c.map Celda.num) _ j [] [] (by simpa using hj),
        getD_map_range _ _ j _ hj]

/-- Witness for C7 at the claim's own instance `numero_de_bingos = 6`,
`bingos_por_fila = 2`, `cartones_por_bingo = 3` (and 10 numbers per card):
three rows, left ids `0001..0003`, right ids `0004..0006`; the two decidable
conjuncts at the end exhibit the corner ids `0001` and `0006` concretely. -/
theorem corel_filas_ids_e_indices_test :
    (ConfiguracionBingo.mk 0 6 10 60 3 2).bingos_por_fila = 2
      ∧ (2 : Int) ∣ (ConfiguracionBingo.mk 0 6 10 60 3 2).numero_de_bingos
      ∧ ((List.range 18).map (fun i => (List.range 10).map (fun t => 10 * i + t + 1))).length
          = (ConfiguracionBingo.mk 0 6 10 60 3 2).numero_de_bingos.toNat
            * (ConfiguracionBingo.mk 0 6 10 60 3 2).cartones_por_bingo.toNat
      ∧ (∀ c ∈ (List.range 18).map (fun i => (List.range 10).map (fun t => 10 * i + t + 1)),
          c.length = 10)
      ∧ ((crearDataframeCorel
            ((List.range 18).map (fun i => (List.range 10).map (fun t => 10 * i + t + 1)))
            (ConfiguracionBingo.mk 0 6 10 60 3 2)).length
          = (ConfiguracionBingo.mk 0 6 10 60 3 2).numero_de_bingos.toNat / 2
        ∧ 2 * (((ConfiguracionBingo.mk 0 6 10 60 3 2).numero_de_bingos.toNat / 2)
              * (ConfiguracionBingo.mk 0 6 10 60 3 2).cartones_por_bingo.toNat)
            = ((List.range 18).map (fun i => (List.range 10).map (fun t => 10 * i + t + 1))).length
        ∧ ∀ r < (ConfiguracionBingo.mk 0 6 10 60 3 2).numero_de_bingos.toNat / 2,
            ((crearDataframeCorel
                ((List.range 18).map (fun i => (List.range 10).map (fun t => 10 * i + t + 1)))
                (ConfiguracionBingo.mk 0 6 10 60 3 2)).getD r []).getD 0 (Celda.num 0)
                = Celda.id (format04 (r + 1))
              ∧ ((crearDataframeCorel
                  ((List.range 18).map (fun i => (List.range 10).map (fun t => 10 * i + t + 1)))
                  (ConfiguracionBingo.mk 0 6 10 60 3 2)).getD r []).getD
                    (1 + (ConfiguracionBingo.mk 0 6 10 60 3 2).cartones_por_bingo.toNat * 10)
                    (Celda.num 0)
                = Celda.id (format04
                    ((ConfiguracionBingo.mk 0 6 10 60 3 2).numero_de_bingos.toNat / 2 + 1 + r))
              ∧ (∀ j < (ConfiguracionBingo.mk 0 6 10 60 3 2).cartones_por_bingo.toNat,
                  ((((crearDataframeCorel
                      ((List.range 18).map (fun i => (List.range 10).map (fun t => 10 * i + t + 1)))
                      (ConfiguracionBingo.mk 0 6 10 60 3 2)).getD r []).drop (1 + j * 10)).take 10)
                    = (((List.range 18).map (fun i => (List.range 10).map (fun t => 10 * i + t + 1))).getD
                        (r * (ConfiguracionBingo.mk 0 6 10 60 3 2).cartones_por_bingo.toNat + j) []).map
                          Celda.num)
              ∧ (∀ j < (ConfiguracionBingo.mk 0 6 10 60 3 2).cartones_por_bingo.toNat,
                  ((((crearDataframeCorel
                      ((List.range 18).map (fun i => (List.range 10).map (fun t => 10 * i + t + 1)))
                      (ConfiguracionBingo.mk 0 6 10 60 3 2)).getD r []).drop
                        (2 + (ConfiguracionBingo.mk 0 6 10 60 3 2).cartones_por_bingo.toNat * 10
                          + j * 10)).take 10)
                    = (((List.range 18).map (fun i => (List.range 10).map (fun t => 10 * i + t + 1))).getD
                        (((ConfiguracionBingo.mk 0 6 10 60 3 2).numero_de_bingos.toNat / 2 + r)
                          * (ConfiguracionBingo.mk 0 6 10 60 3 2).cartones_por_bingo.toNat + j) []).map
                          Celda.num))
      ∧ ((crearDataframeCorel
            ((List.range 18).map (fun i => (List.range 10).map (fun t => 10 * i + t + 1)))
            (ConfiguracionBingo.mk 0 6 10 60 3 2)).getD 0 []).getD 0 (Celda.num 0)
          = Celda.id "0001"
      ∧ ((crearDataframeCorel
            ((List.range 18).map (fun i => (List.range 10).map (fun t => 10 * i + t + 1)))
            (ConfiguracionBingo.mk 0 6 10 60 3 2)).getD 2 []).getD 31 (Celda.num 0)
          = Celda.id "0006" :=
  ⟨rfl, by decide, rfl, by decide,
    corel_filas_ids_e_indices
      ((List.range 18).map (fun i => (List.range 10).map (fun t => 10 * i + t + 1)))
      (ConfiguracionBingo.mk 0 6 10 60 3 2) 10 rfl (by decide) rfl (by decide),
    by decide, by decide⟩

/-! ### Claims C8 and C10: the simulation loop -/

lemma pasoSimulacion_fst (k b : Nat) :
    ∀ cs : List Carton,
      (pasoSimulacion k b cs).1 = cs.map (fun c =>
        if b ∈ c.numeros then { c with aciertos := insert b c.aciertos } else c) := by
  intro cs
  induction cs with
  | nil => rfl
  | cons c resto ih =>
      by_cases hb : b ∈ c.numeros
      · by_cases hcard : (insert b c.aciertos).card = k
        · simp [pasoSimulacion, hb, hcard, ih]
        · simp [pasoSimulacion, hb, hcard, ih]
      · simp [pasoSimulacion, hb, ih]

lemma pasoSimulacion_snd (k b : Nat) :
    ∀ cs : List Carton,
      (pasoSimulacion k b cs).2 = (cs.filter (fun c =>
          decide (b ∈ c.numeros) && decide ((insert b c.aciertos).card = k))).map
        (fun c => (c.bingo_id, c.carton_tipo)) := by
  intro cs
  induction cs with
  | nil => rfl
  | cons c resto ih =>
      by_cases hb : b ∈ c.numeros
      · by_cases hcard : (insert b c.aciertos).card = k
        · simp [pasoSimulacion, hb, hcard, ih, List.filter_cons]
        · simp [pasoSimulacion, hb, hcard, ih, List.filter_cons]
      · simp [pasoSimulacion, hb, ih, List.filter_cons]

lemma condicion_ganadora (k b : Nat) (S : Finset Nat) (c : Carton)
    (haci : c.aciertos = c.numeros ∩ S) (hcard : c.numeros.card = k)
    (hnc : ¬ c.numeros ⊆ S) :
    (b ∈ c.numeros ∧ (insert b c.aciertos).card = k) ↔ c.numeros ⊆ insert b S := by
  constructor
  · rintro ⟨hb, hkc⟩
    have heq : insert b c.aciertos = c.numeros ∩ insert b S := by
      rw [haci]
      ext x
      simp only [Finset.mem_insert, Finset.mem_inter]
      constructor
      · rintro (rfl | ⟨h1, h2⟩)
        · exact ⟨hb, Or.inl rfl⟩
        · exact ⟨h1, Or.inr h2⟩
      · rintro ⟨h1, rfl | h2⟩
        · exact Or.inl rfl
        · exact Or.inr ⟨h1, h2⟩
    rw [heq] at hkc
    have hfull : c.numeros ∩ insert b S = c.numeros :=
      Finset.eq_of_subset_of_card_le Finset.inter_subset_left (by rw [hkc, hcard])
    intro x hx
    have hx2 : x ∈ c.numeros ∩ insert b S := by rw [hfull]; exact hx
    exact (Finset.mem_inter.1 hx2).2
  · intro hsubI
    have hb : b ∈ c.numeros := by
      by_contra hb
      apply hnc
      intro x hx
      rcases Finset.mem_insert.1 (hsubI hx) with rfl | hxs
      · exact absurd hx hb
      · exact hxs
    refine ⟨hb, ?_⟩
    have heq : insert b c.aciertos = c.numeros := by
      rw [haci]
      ext x
      simp only [Finset.mem_insert, Finset.mem_inter]
      constructor
      · rintro (rfl | ⟨h1, _⟩)
        · exact hb
        · exact h1
      · intro hx
        rcases Finset.mem_insert.1 (hsubI hx) with rfl | hxs
        · exact Or.inl rfl
        · exact Or.inr ⟨hx, hxs⟩
    rw [heq, hcard]

lemma marcarSim_numeros (b : Nat) (c : Carton) :
    ((if b ∈ c.numeros then { c with aciertos := insert b c.aciertos } else c)
      : Carton).numeros = c.numeros := by
  split <;> rfl

lemma bucleSimulacion_caracterizacion (k : Nat) :
    ∀ (resto : List Nat) (S : Finset Nat) (cs : List Carton) (contador : Nat),
      resto.Nodup →
      (∀ b ∈ resto, b ∉ S) →
      (∀ c ∈ cs, c.aciertos = c.numeros ∩ S ∧ c.numeros.card = k ∧ ¬ c.numeros ⊆ S) →
      S.card ≤ contador →
      ∃ t, t ≤ resto.length
        ∧ (bucleSimulacion k cs resto contador).1 = contador + t
        ∧ (bucleSimulacion k cs resto contador).2.1
            = (cs.filter (fun c => decide (c.numeros ⊆ S ∪ (resto.take t).toFinset))).map
              (fun c => (c.bingo_id, c.carton_tipo))
        ∧ (∀ c ∈ cs, ¬ c.numeros ⊆ S ∪ (resto.take (t - 1)).toFinset)
        ∧ ((bucleSimulacion k cs resto contador).2.1 = [] → t = resto.length)
        ∧ ((bucleSimulacion k cs resto contador).2.1 ≠ [] → k ≤ contador + t) := by
  intro resto
  induction resto with
  | nil =>
      intro S cs contador _ _ hcs _
      refine ⟨0, le_rfl, rfl, ?_, ?_, fun _ => rfl, fun habs => absurd rfl habs⟩
      · rw [List.filter_eq_nil_iff.2 (fun c hc => by simpa using (hcs c hc).2.2)]
        rfl
      · intro c hc
        simpa using (hcs c hc).2.2
  | cons b resto' ih =>
      intro S cs contador hnd hfresco hcs hScard
      have hpasoSnd : (pasoSimulacion k b cs).2
          = (cs.filter (fun c => decide (c.numeros ⊆ insert b S))).map
              (fun c => (c.bingo_id, c.carton_tipo)) := by
        rw [pasoSimulacion_snd]
        congr 1
        apply List.filter_congr
        intro c hc
        obtain ⟨haci, hcard, hnc⟩ := hcs c hc
        have hiff := condicion_ganadora k b S c haci hcard hnc
        rw [show (decide (b ∈ c.numeros) && decide ((insert b c.aciertos).card = k))
            = decide (b ∈ c.numeros ∧ (insert b c.aciertos).card = k) by simp]
        exact decide_eq_decide.2 hiff
      by_cases hwin : (pasoSimulacion k b cs).2 = []
      · -- no winner on this ball: recurse with the ball added to the called set
        have hno' : ∀ c ∈ cs, ¬ c.numeros ⊆ insert b S := by
          intro c hc
          rw [hpasoSnd] at hwin
          have hfil := List.map_eq_nil_iff.1 hwin
          have := List.filter_eq_nil_iff.1 hfil c hc
          simpa using this
        have hcs' : ∀ c' ∈ (pasoSimulacion k b cs).1,
            c'.aciertos = c'.numeros ∩ insert b S ∧ c'.numeros.card = k
              ∧ ¬ c'.numeros ⊆ insert b S := by
          rw [pasoSimulacion_fst]
          intro c' hc'
          obtain ⟨c, hc, rfl⟩ := List.mem_map.1 hc'
          obtain ⟨haci, hcard, hnc⟩ := hcs c hc
          rw [marcarSim_numeros]
          refine ⟨?_, hcard, hno' c hc⟩
          by_cases hb : b ∈ c.numeros
          · simp only [if_pos hb, haci]
            ext x
            simp only [Finset.mem_insert, Finset.mem_inter]
            constructor
            · rintro (rfl | ⟨h1, h2⟩)
              · exact ⟨hb, Or.inl rfl⟩
              · exact ⟨h1, Or.inr h2⟩
            · rintro ⟨h1, rfl | h2⟩
              · exact Or.inl rfl
              · exact Or.inr ⟨h1, h2⟩
          · simp only [if_neg hb, haci]
            ext x
            simp only [Finset.mem_insert, Finset.mem_inter]
            constructor
            · rintro ⟨h1, h2⟩
              exact ⟨h1, Or.inr h2⟩
            · rintro ⟨h1, rfl | h2⟩
              · exact absurd h1 hb
              · exact ⟨h1, h2⟩
        obtain ⟨t', ht'len, ht'cnt, ht'gan, ht'min, ht'exh, ht'k⟩ :=
          ih (insert b S) (pasoSimulacion k b cs).1 (contador + 1)
            ((List.nodup_cons.1 hnd).2)
            (fun b' hb' => by
              simp only [Finset.mem_insert]
              rintro (rfl | hbS)
              · exact (List.nodup_cons.1 hnd).1 hb'
              · exact hfresco b' (List.mem_cons_of_mem _ hb') hbS)
            hcs'
            (le_trans (Finset.card_insert_le b S) (by omega))
        have hbucle : bucleSimulacion k cs (b :: resto') contador
            = bucleSimulacion k (pasoSimulacion k b cs).1 resto' (contador + 1) := by
          simp [bucleSimulacion, hwin]
        have hunion : ∀ X : Finset Nat, insert b S ∪ X = S ∪ insert b X := by
          intro X
          ext x
          simp only [Finset.mem_union, Finset.mem_insert]
          tauto
        refine ⟨t' + 1, by simpa using Nat.succ_le_succ ht'len, ?_, ?_, ?_, ?_, ?_⟩
        · rw [hbucle, ht'cnt]; omega
        · rw [hbucle, ht'gan]
          have htake : ((b :: resto').take (t' + 1)).toFinset
              = insert b (resto'.take t').toFinset := by
            simp [List.take_succ_cons]
          rw [htake, ← hunion]
          rw [pasoSimulacion_fst, List.filter_map, List.map_map]
          congr 1
          · funext c
            by_cases hb : b ∈ c.numeros <;> simp [Function.comp, hb]
          · apply List.filter_congr
            intro c hc
            simp [marcarSim_numeros]
        · intro c hc
          cases t' with
          | zero =>
              simpa using (hcs c hc).2.2
          | succ t'' =>
              have hc' : (if b ∈ c.numeros then
                  ({ c with aciertos := insert b c.aciertos } : Carton) else c)
                  ∈ (pasoSimulacion k b cs).1 := by
                rw [pasoSimulacion_fst]
                exact List.mem_map_of_mem _ hc
              have hmin := ht'min _ hc'
              rw [marcarSim_numeros] at hmin
              intro habs
              apply hmin
              have htake : ((b :: resto').take (t'' + 1 + 1 - 1)).toFinset
                  = insert b (resto'.take (t'' + 1 - 1)).toFinset := by
                simp [List.take_succ_cons]
              rw [htake] at habs
              rw [← hunion] at habs
              exact habs
        · intro hgan0
          rw [hbucle] at hgan0
          have := ht'exh hgan0
          simp [this]
        · intro hgan0
          rw [hbucle] at hgan0
          have := ht'k hgan0
          omega
      · -- a winner appears on this ball: the loop stops here
        have hbucle : bucleSimulacion k cs (b :: resto') contador
            = (contador + 1, (pasoSimulacion k b cs).2, (pasoSimulacion k b cs).1) := by
          simp [bucleSimulacion, hwin]
        refine ⟨1, by simp, by rw [hbucle], ?_, ?_, ?_, ?_⟩
        · rw [hbucle, hpasoSnd]
          have hset : S ∪ ((b :: resto').take 1).toFinset = insert b S := by
            have htake : ((b :: resto').take 1).toFinset = ({b} : Finset Nat) := by
              simp
            rw [htake]
            ext x
            simp only [Finset.mem_union, Finset.mem_insert, Finset.mem_singleton]
            tauto
          rw [hset]
        · intro c hc
          simpa using (hcs c hc).2.2
        · intro habs
          rw [hbucle] at habs
          exact absurd habs.symm (by simpa using hwin)
        · intro _
          rw [hpasoSnd] at hwin
          have hfil : cs.filter (fun c => decide (c.numeros ⊆ insert b S)) ≠ [] := by
            intro habs
            rw [habs] at hwin
            exact hwin rfl
          obtain ⟨c, hcmem⟩ := List.exists_mem_of_ne_nil _ hfil
          have hc2 := List.mem_filter.1 hcmem
          have hcsub : c.numeros ⊆ insert b S := by simpa using hc2.2
          obtain ⟨_, hcard, _⟩ := hcs c hc2.1
          have h1 : k ≤ (insert b S).card := by
            rw [← hcard]
            exact Finset.card_le_card hcsub
          have h2 : (insert b S).card ≤ S.card + 1 := Finset.card_insert_le ..
          omega

/-- Claim C8: order-independence of winning in `simular_jugada`.  For any
duplicate-free draw order, the trial's winner list is exactly the cards whose
numbers set is covered by the SET of the first `bolillas_hasta_ganador` balls,
and no card is covered by the set of strictly earlier balls: a card becomes a
winner exactly at the first call after which every one of its numbers has been
called, so the winning round depends only on the set of numbers called so far,
not on their order. -/
theorem ganador_primera_cobertura (cartones : List Carton) (k : Nat)
    (orden : List Nat) (hk1 : 1 ≤ k)
    (hcards : ∀ c ∈ cartones, c.numeros.card = k)
    (hnd : orden.Nodup) :
    (simularJugada k cartones orden).2.1
        = (cartones.filter (fun c =>
            decide (c.numeros ⊆ (orden.take (simularJugada k cartones orden).1).toFinset))).map
          (fun c => (c.bingo_id, c.carton_tipo))
      ∧ ∀ c ∈ cartones,
          ¬ c.numeros ⊆ (orden.take ((simularJugada k cartones orden).1 - 1)).toFinset := by
  have hcs0 : ∀ c' ∈ cartones.map (fun c => ({ c with aciertos := ∅ } : Carton)),
      c'.aciertos = c'.numeros ∩ (∅ : Finset Nat) ∧ c'.numeros.card = k
        ∧ ¬ c'.numeros ⊆ (∅ : Finset Nat) := by
    intro c' hc'
    obtain ⟨c, hc, rfl⟩ := List.mem_map.1 hc'
    refine ⟨by simp, hcards c hc, ?_⟩
    intro habs
    have h0 : c.numeros = ∅ := Finset.subset_empty.1 habs
    have hcard := hcards c hc
    rw [h0] at hcard
    simp at hcard
    omega
  obtain ⟨t, htlen, hcnt, hgan, hmin, hexh, hklb⟩ :=
    bucleSimulacion_caracterizacion k orden ∅
      (cartones.map (fun c => { c with aciertos := ∅ })) 0
      hnd (by simp) hcs0 (by simp)
  have hst : (simularJugada k cartones orden).1 = t := by
    have h1 : (simularJugada k cartones orden).1 = 0 + t := hcnt
    omega
  constructor
  · rw [hst]
    have h1 : (simularJugada k cartones orden).2.1
        = ((cartones.map (fun c => ({ c with aciertos := ∅ } : Carton))).filter
            (fun c => decide (c.numeros ⊆ (∅ : Finset Nat) ∪ (orden.take t).toFinset))).map
          (fun c => (c.bingo_id, c.carton_tipo)) := hgan
    rw [h1, List.filter_map, List.map_map]
    congr 1
  · intro c hc
    rw [hst]
    have hmem : ({ c with aciertos := ∅ } : Carton)
        ∈ cartones.map (fun c => ({ c with aciertos := ∅ } : Carton)) :=
      List.mem_map_of_mem _ hc
    have := hmin _ hmem
    simpa using this

/-- Witness for C8: the single card `{1, 2, 3}` against the draw order
`[2, 3, 1, 4]` (it wins at round 3, after exactly its own numbers have been
called in a different order). -/
theorem ganador_primera_cobertura_test :
    1 ≤ 3
      ∧ (∀ c ∈ [Carton.mk "0001" "A" {1, 2, 3} ∅], c.numeros.card = 3)
      ∧ ([2, 3, 1, 4] : List Nat).Nodup
      ∧ ((simularJugada 3 [Carton.mk "0001" "A" {1, 2, 3} ∅] [2, 3, 1, 4]).2.1
          = ([Carton.mk "0001" "A" {1, 2, 3} ∅].filter (fun c =>
              decide (c.numeros ⊆ (([2, 3, 1, 4] : List Nat).take
                (simularJugada 3 [Carton.mk "0001" "A" {1, 2, 3} ∅] [2, 3, 1, 4]).1).toFinset))).map
            (fun c => (c.bingo_id, c.carton_tipo))
        ∧ ∀ c ∈ [Carton.mk "0001" "A" {1, 2, 3} ∅],
            ¬ c.numeros ⊆ (([2, 3, 1, 4] : List Nat).take
              ((simularJugada 3 [Carton.mk "0001" "A" {1, 2, 3} ∅] [2, 3, 1, 4]).1 - 1)).toFinset) :=
  ⟨by decide, by decide, by decide,
    ganador_primera_cobertura [Carton.mk "0001" "A" {1, 2, 3} ∅] 3 [2, 3, 1, 4]
      (by decide) (by decide) (by decide)⟩

/-- Claim C10: a simulated trial on a non-empty card list, each card holding
exactly `numeros_por_carton ≥ 1` distinct numbers from `1..bolillas_totales`,
and a draw order that is a permutation of `1..bolillas_totales`, always ends
with at least one winner, and the balls-consumed count (inclusive of the
winning draw) is at least `numeros_por_carton` and at most
`bolillas_totales` — the trial never exhausts the permutation without a
winner. -/
theorem simulacion_siempre_gana (cartones : List Carton) (k n : Nat)
    (orden : List Nat)
    (hne : cartones ≠ []) (hk1 : 1 ≤ k)
    (hcards : ∀ c ∈ cartones, c.numeros.card = k ∧ c.numeros ⊆ Finset.Icc 1 n)
    (hnd : orden.Nodup) (huniv : orden.toFinset = Finset.Icc 1 n) :
    (simularJugada k cartones orden).2.1 ≠ []
      ∧ k ≤ (simularJugada k cartones orden).1
      ∧ (simularJugada k cartones orden).1 ≤ n := by
  have hlen : orden.length = n := by
    have h1 := List.toFinset_card_of_nodup hnd
    rw [huniv] at h1
    simp [Nat.card_Icc] at h1
    omega
  have hcs0 : ∀ c' ∈ cartones.map (fun c => ({ c with aciertos := ∅ } : Carton)),
      c'.aciertos = c'.numeros ∩ (∅ : Finset Nat) ∧ c'.numeros.card = k
        ∧ ¬ c'.numeros ⊆ (∅ : Finset Nat) := by
    intro c' hc'
    obtain ⟨c, hc, rfl⟩ := List.mem_map.1 hc'
    refine ⟨by simp, (hcards c hc).1, ?_⟩
    intro habs
    have h0 : c.numeros = ∅ := Finset.subset_empty.1 habs
    have hcard := (hcards c hc).1
    rw [h0] at hcard
    simp at hcard
    omega
  obtain ⟨t, htlen, hcnt, hgan, hmin, hexh, hklb⟩ :=
    bucleSimulacion_caracterizacion k orden ∅
      (cartones.map (fun c => { c with aciertos := ∅ })) 0
      hnd (by simp) hcs0 (by simp)
  have hne2 : (simularJugada k cartones orden).2.1 ≠ [] := by
    intro h0
    have h0' : (bucleSimulacion k
        (cartones.map (fun c => ({ c with aciertos := ∅ } : Carton))) orden 0).2.1
        = [] := h0
    have ht := hexh h0'
    rw [hgan] at h0'
    have hfil := List.map_eq_nil_iff.1 h0'
    obtain ⟨c, hc⟩ := List.exists_mem_of_ne_nil _ hne
    have hnp := List.filter_eq_nil_iff.1 hfil _ (List.mem_map_of_mem _ hc)
    apply hnp
    simp only [decide_eq_true_eq]
    rw [ht, List.take_length]
    simpa [huniv] using (hcards c hc).2
  refine ⟨hne2, ?_, ?_⟩
  · have := hklb hne2
    have h1 : (simularJugada k cartones orden).1 = 0 + t := hcnt
    omega
  · have h1 : (simularJugada k cartones orden).1 = 0 + t := hcnt
    omega

/-- Witness for C10: the single 2-number card `{1, 2}` under the permutation
`[3, 1, 2]` of `1..3`: the trial ends with a winner after 3 balls. -/
theorem simulacion_siempre_gana_test :
    ([Carton.mk "0001" "A" {1, 2} ∅] ≠ ([] : List Carton))
      ∧ 1 ≤ 2
      ∧ (∀ c ∈ [Carton.mk "0001" "A" {1, 2} ∅],
          c.numeros.card = 2 ∧ c.numeros ⊆ Finset.Icc 1 3)
      ∧ ([3, 1, 2] : List Nat).Nodup
      ∧ ([3, 1, 2] : List Nat).toFinset = Finset.Icc 1 3
      ∧ ((simularJugada 2 [Carton.mk "0001" "A" {1, 2} ∅] [3, 1, 2]).2.1 ≠ []
        ∧ 2 ≤ (simularJugada 2 [Carton.mk "0001" "A" {1, 2} ∅] [3, 1, 2]).1
        ∧ (simularJugada 2 [Carton.mk "0001" "A" {1, 2} ∅] [3, 1, 2]).1 ≤ 3) :=
  ⟨by decide, by decide, by decide, by decide, by decide,
    simulacion_siempre_gana [Carton.mk "0001" "A" {1, 2} ∅] 2 3 [3, 1, 2]
      (by decide) (by decide) (by decide) (by decide) (by decide)⟩
